import Mathlib

/-!
# Web interface: side-channel router and transfer manager

A shallow embedding of `manage_videos.js` (the transfer manager: `play_video`,
`save_video`, `request_download`, `handle_download_completed`) and of the
`dc.onmessage` handler of `manage_webrtc_conn.js` (the control message router).

Modelling conventions.

* The three globals `downloaded_videos`, `fileChunks`, `isDownloading` form the
  `State`; every function takes the state and returns an `Outcome`: the state
  afterwards, the observable effects in the order they happen, and the
  exception that escaped the function, when one did.
* `downloaded_videos` is a JavaScript object used as a map from filename to
  entry; its own properties are an association list here (in insertion order).
  The source tests `filename in downloaded_videos`, which also holds for the
  names the object inherits from `Object.prototype` (`Object_prototype_names`).
  The value found under such a name is a built-in object; it is taken as at page
  load, with no `blob`, `play_requested` or `save_requested` of its own, so
  these read as `undefined`. A completion notice that names an inherited name
  writes its blob onto that built-in object: the write is outside the three
  globals and is not followed further.
* A chunk is a list of bytes, a `Blob` is the concatenation of its parts and
  its MIME type.
* Values read out of a parsed message are `JsVal`: the handler only compares
  them with `===`, tests them against `null`, uses them as property key or
  splices them into a string, so a value that is neither `undefined`, `null`
  nor a string is kept as the string JavaScript converts it to.
* `JSON.parse` belongs to the host; it is a parameter `JSON_parse`, `none`
  standing for a thrown `SyntaxError`.
* The DOM and the data channel belong to the host as well: the elements the
  code looks up exist and the channel is open, so a render, a persist, an
  alert and a send are recorded as effects and do not throw. The list and the
  choices updates done by `handle_intrusion_videos_response` and
  `handle_yolox_objects_response` touch the DOM only and are recorded as one
  effect each; they throw on a missing payload. Console output and the delayed
  `URL.revokeObjectURL` are not recorded.

The signaling side of `manage_webrtc_conn.js` (`ws.onopen`, `ws.onmessage`,
`send_offer`, `pc.onicecandidate`) follows further down.

* These handlers read and write none of the three globals, so they take no
  `State`; what they do is the list of calls they make on the WebSocket and on
  the peer connection (`SignalEffect`), in order.
* A `try { ... } catch` is modelled in two layers: the body, which can raise,
  and the handler, which turns whatever the body raised into a console line.
* The outcomes of the host's promises are inputs of `send_offer`: what
  `createOffer` resolved to (`none` for a rejection), whether
  `setLocalDescription` resolved, and whether the socket is open when the
  offer is about to be sent.
* `new RTCSessionDescription(answer)` followed by `setRemoteDescription` is one
  effect; the promise's rejection is handled by its own `.catch`.
-/

namespace ReliantWatcher

/-- Raw bytes of one binary frame or of an assembled file. -/
abbrev Bytes := List Nat

/-- Result of `new Blob(parts, { type })`: the parts concatenated, and the MIME type. -/
structure Blob where
  bytes : Bytes
  type : String
deriving DecidableEq, Repr

/-- JavaScript values as far as the handlers inspect them. -/
inductive JsVal where
  | undefined
  | null
  | str (s : String)
  | other (shown : String)
deriving DecidableEq, Repr

/-- String conversion, as done by `+` with a string, by a template literal and by a property key. -/
def JsVal.toStr : JsVal → String
  | .undefined => "undefined"
  | .null => "null"
  | .str s => s
  | .other shown => shown

/-- Default parameter `= null`: it replaces `undefined` only. -/
def JsVal.orNull : JsVal → JsVal
  | .undefined => .null
  | v => v

/-- What `JSON.parse` returns: the literal `null`, or a value whose properties can be read
(an object with the listed own properties; a number, string, boolean or array has none of
the properties the handler reads and is `value []`). -/
inductive Json where
  | null
  | value (fields : List (String × JsVal))
deriving DecidableEq, Repr

/-- Property read `data.key` on a non-null value: `undefined` when absent. -/
def readProp (fields : List (String × JsVal)) (key : String) : JsVal :=
  match fields with
  | [] => .undefined
  | (k, v) :: rest => if k = key then v else readProp rest key

/-- Entry of `downloaded_videos`: `{ blob, play_requested, save_requested }`. -/
structure VideoEntry where
  blob : Option Blob
  play_requested : Bool
  save_requested : Bool
deriving DecidableEq, Repr

/-- Map from filename to entry, as the object `downloaded_videos`. -/
abbrev Videos := List (String × VideoEntry)

/-- Read the own property `downloaded_videos[filename]`; `none` when the object has no own
property of that name. The source's test `filename in downloaded_videos` holds when this is
`some`, and also when the name is one of `Object_prototype_names`. -/
def Videos.get (videos : Videos) (filename : String) : Option VideoEntry :=
  match videos with
  | [] => none
  | (k, v) :: rest => if k = filename then some v else Videos.get rest filename

/-- Write `downloaded_videos[filename] = entry`: in place for a known key, appended otherwise. -/
def Videos.set (videos : Videos) (filename : String) (entry : VideoEntry) : Videos :=
  match videos with
  | [] => [(filename, entry)]
  | (k, v) :: rest =>
    if k = filename then (k, entry) :: rest else (k, v) :: Videos.set rest filename entry

/-- The module-level variables of `manage_videos.js`. -/
structure State where
  downloaded_videos : Videos
  fileChunks : List Bytes
  isDownloading : Bool
deriving DecidableEq, Repr

/-- State at page load: `{}`, `[]`, `false`. -/
def State.initial : State :=
  { downloaded_videos := [], fileChunks := [], isDownloading := false }

/-- Messages the transfer manager sends over the data channel. -/
inductive Message where
  | request_download (video_player_id : JsVal) (filename : String)
deriving DecidableEq, Repr

/-- Observable effects on the host. A `render` is the whole of lines 91 to 97 of
`manage_videos.js`: title set, blob URL attached, `load`, `play`. A `title` is the title
assignment of lines 91 and 92 alone, when the function is interrupted after it. -/
inductive Effect where
  | send (message : Message)
  | render (video_player_id : String) (filename : String) (blob : Blob)
  | persist (filename : String) (blob : Blob)
  | alert (text : String)
  | intrusion_videos_response (videos_with_metadata : JsVal)
      (intrusion_list_id : String) (video_player_id : String)
  | yolox_objects_response (yolox_objects : JsVal)
  | title (video_player_id : String) (filename : String)
deriving DecidableEq, Repr

/-- Exceptions that can escape a handler. -/
inductive JsError where
  | SyntaxError
  | TypeError
deriving DecidableEq, Repr

/-- Result of running one function or handler. -/
structure Outcome where
  state : State
  effects : List Effect
  raised : Option JsError
deriving DecidableEq, Repr

/-- The empty entry `{ blob: null, play_requested: false, save_requested: false }`. -/
def VideoEntry.empty : VideoEntry :=
  { blob := none, play_requested := false, save_requested := false }

/-- Own property names of `Object.prototype`: for each of them `name in downloaded_videos`
holds although the object has no such entry. -/
def Object_prototype_names : List String :=
  ["constructor", "__defineGetter__", "__defineSetter__", "hasOwnProperty",
   "__lookupGetter__", "__lookupSetter__", "isPrototypeOf", "propertyIsEnumerable",
   "toString", "valueOf", "__proto__", "toLocaleString"]

/-- Whether `filename in downloaded_videos` holds by inheritance alone: the object has no own
entry of that name, and the name is inherited. -/
def State.inherits (st : State) (filename : String) : Bool :=
  (st.downloaded_videos.get filename).isNone && decide (filename ∈ Object_prototype_names)

/-- Source: `request_download(filename, video_player_id = null)`. -/
def request_download (filename : String) (video_player_id : JsVal) (st : State) : Outcome :=
  { state := { st with fileChunks := [], isDownloading := true }
    effects := [.send (.request_download video_player_id.orNull filename)]
    raised := none }

/-- Source: `play_video(filename, video_player_id)`. For an inherited name without an own
entry the test of line 89 holds (`in` is true, and the `blob` read from the built-in object
is `undefined`, which is `!== null`): the title is set and `URL.createObjectURL(undefined)`
throws. -/
def play_video (filename : String) (video_player_id : JsVal) (st : State) : Outcome :=
  match st.downloaded_videos.get filename with
  | some entry =>
    match entry.blob with
    | some blob =>
      { state := { st with downloaded_videos :=
          st.downloaded_videos.set filename { entry with play_requested := false } }
        effects := [.render video_player_id.toStr filename blob]
        raised := none }
    | none =>
      request_download filename video_player_id
        { st with downloaded_videos :=
            st.downloaded_videos.set filename { entry with play_requested := true } }
  | none =>
    if filename ∈ Object_prototype_names then
      { state := st
        effects := [.title video_player_id.toStr filename]
        raised := some .TypeError }
    else
      request_download filename video_player_id
        { st with downloaded_videos :=
            st.downloaded_videos.set filename { VideoEntry.empty with play_requested := true } }

/-- Source: `save_video(filename)`. For an inherited name without an own entry the test of
line 115 holds as in `play_video`, and `URL.createObjectURL(undefined)` of line 118 throws
before anything else is done. -/
def save_video (filename : String) (st : State) : Outcome :=
  match st.downloaded_videos.get filename with
  | some entry =>
    match entry.blob with
    | some blob =>
      { state := { st with downloaded_videos :=
          st.downloaded_videos.set filename { entry with save_requested := false } }
        effects := [.persist filename blob]
        raised := none }
    | none =>
      request_download filename .undefined
        { st with downloaded_videos :=
            st.downloaded_videos.set filename { entry with save_requested := true } }
  | none =>
    if filename ∈ Object_prototype_names then
      { state := st, effects := [], raised := some .TypeError }
    else
      request_download filename .undefined
        { st with downloaded_videos :=
            st.downloaded_videos.set filename { VideoEntry.empty with save_requested := true } }

/-- Run `next` on the state `first` ends in, unless `first` raised; effects are concatenated. -/
def Outcome.andThen (first : Outcome) (next : State → Outcome) : Outcome :=
  match first.raised with
  | some _ => first
  | none =>
    let second := next first.state
    { state := second.state, effects := first.effects ++ second.effects, raised := second.raised }

/-- Outcome of doing nothing. -/
def Outcome.skip (st : State) : Outcome :=
  { state := st, effects := [], raised := none }

/-- Truth value of `downloaded_videos[filename].play_requested` as `handle_download_completed`
reads it: the flag of the own entry, and `undefined`, which is falsy, on the built-in object
found under an inherited name. -/
def State.play_requested (st : State) (filename : String) : Bool :=
  match st.downloaded_videos.get filename with
  | some entry => entry.play_requested
  | none => false

/-- Truth value of `downloaded_videos[filename].save_requested` as `handle_download_completed`
reads it: the flag of the own entry, and `undefined`, which is falsy, on the built-in object
found under an inherited name. -/
def State.save_requested (st : State) (filename : String) : Bool :=
  match st.downloaded_videos.get filename with
  | some entry => entry.save_requested
  | none => false

/-- Source: `handle_download_completed(filename, video_player_id = null)`. For an inherited
name without an own entry `filename in downloaded_videos` holds, so no entry is created; the
blob is written onto the built-in object, outside the globals, and both flags read there are
`undefined`. -/
def handle_download_completed (filename : String) (video_player_id : JsVal) (st : State) :
    Outcome :=
  let video_player_id := video_player_id.orNull
  let blob : Blob := { bytes := st.fileChunks.flatten, type := "video/mp4" }
  let st1 : State := { st with fileChunks := [], isDownloading := false }
  let st2 : State :=
    match st1.downloaded_videos.get filename with
    | some _ => st1
    | none =>
      if filename ∈ Object_prototype_names then st1
      else { st1 with downloaded_videos := st1.downloaded_videos.set filename VideoEntry.empty }
  let st3 : State :=
    match st2.downloaded_videos.get filename with
    | some entry =>
      { st2 with downloaded_videos :=
          st2.downloaded_videos.set filename { entry with blob := some blob } }
    | none => st2
  let played : Outcome :=
    if st3.play_requested filename && video_player_id != .null then
      play_video filename video_player_id st3
    else Outcome.skip st3
  played.andThen fun st4 =>
    if st4.save_requested filename then save_video filename st4 else Outcome.skip st4

/-- Data of a message event on the data channel: a string or binary data. -/
inductive Frame where
  | text (data : String)
  | binary (data : Bytes)
deriving DecidableEq, Repr

/-- Source: `handle_intrusion_videos_response`, as far as the transfer manager is concerned:
it touches the list in the DOM only, which is one effect, and `Object.keys` throws when the
payload is `undefined` (the field is missing) or `null`. The markup of the list, and a throw
on a payload of another wrong shape, are outside the value model. -/
def handle_intrusion_videos_response (videos_with_metadata : JsVal)
    (intrusion_list_id : String) (video_player_id : String) (st : State) : Outcome :=
  { state := st
    effects := [.intrusion_videos_response videos_with_metadata intrusion_list_id
      video_player_id]
    raised :=
      match videos_with_metadata with
      | .undefined => some .TypeError
      | .null => some .TypeError
      | _ => none }

/-- Source: `handle_yolox_objects_response`, as far as the transfer manager is concerned: it
updates the choices only, which is one effect, and `yolox_objects.map` throws when the
payload is `undefined` (the field is missing), `null` or a string. A throw on a payload of
another wrong shape is outside the value model. -/
def handle_yolox_objects_response (yolox_objects : JsVal) (st : State) : Outcome :=
  { state := st
    effects := [.yolox_objects_response yolox_objects]
    raised :=
      match yolox_objects with
      | .other _ => none
      | _ => some .TypeError }

/-- Source: `dc.onmessage` in `create_peer_connection`. -/
def dc_onmessage (JSON_parse : String → Option Json) (st : State) : Frame → Outcome
  | .text raw =>
    match JSON_parse raw with
    | none => { state := st, effects := [], raised := some .SyntaxError }
    | some .null => { state := st, effects := [], raised := some .TypeError }
    | some (.value data) =>
      if readProp data "action" = .str "send_latest_intrusion_videos" then
        handle_intrusion_videos_response (readProp data "videos_with_metadata")
          "recent_intrusion_list" "recent_intrusion_video_player" st
      else if readProp data "action" = .str "send_searched_intrusion_videos" then
        handle_intrusion_videos_response (readProp data "videos_with_metadata")
          "search_intrusion_list" "searched_intrusion_video_player" st
      else if readProp data "action" = .str "download_complete" then
        handle_download_completed (readProp data "filename").toStr
          (readProp data "video_player_id") st
      else if readProp data "action" = .str "download_error" then
        { state := { st with isDownloading := false, fileChunks := [] }
          effects := [.alert ("File transfer error: " ++ (readProp data "message").toStr)]
          raised := none }
      else if readProp data "action" = .str "send_yolox_objects" then
        handle_yolox_objects_response (readProp data "yolox_objects") st
      else if readProp data "action" = .str "error" then
        { state := st, effects := [.alert ("Error: " ++ (readProp data "error_message").toStr)]
          raised := none }
      else Outcome.skip st
  | .binary chunk =>
    if st.isDownloading then
      Outcome.skip { st with fileChunks := st.fileChunks ++ [chunk] }
    else Outcome.skip st

/-- Events the transfer manager reacts to: the two buttons of a list item and a frame. -/
inductive Event where
  | play_video (filename : String) (video_player_id : String)
  | save_video (filename : String)
  | dc_message (frame : Frame)
deriving DecidableEq, Repr

/-- One turn of the event loop. -/
def step (JSON_parse : String → Option Json) (st : State) : Event → Outcome
  | .play_video filename video_player_id => play_video filename (.str video_player_id) st
  | .save_video filename => save_video filename st
  | .dc_message frame => dc_onmessage JSON_parse st frame

/-- State, effects and escaped exceptions after a sequence of events. -/
structure Trace where
  state : State
  effects : List Effect
  errors : List JsError
deriving DecidableEq, Repr

/-- Run events in arrival order; an exception ends its own handler only. -/
def run (JSON_parse : String → Option Json) (st : State) : List Event → Trace
  | [] => { state := st, effects := [], errors := [] }
  | ev :: rest =>
    let o := step JSON_parse st ev
    let t := run JSON_parse o.state rest
    { state := t.state, effects := o.effects ++ t.effects
      errors := o.raised.toList ++ t.errors }

/-- Binary frames, one event per chunk, in arrival order. -/
def chunk_events (chunks : List Bytes) : List Event :=
  chunks.map fun chunk => Event.dc_message (Frame.binary chunk)

/-- Read `downloaded_videos[filename].blob`, `none` for `null` and for an unknown filename. -/
def State.blob (st : State) (filename : String) : Option Blob :=
  match st.downloaded_videos.get filename with
  | some entry => entry.blob
  | none => none

/-- The Blob `handle_download_completed` builds from the chunk buffer. -/
def State.assembled (st : State) : Blob :=
  { bytes := st.fileChunks.flatten, type := "video/mp4" }

/-- Whether the event is a text frame that the router hands to `handle_download_completed`
with the given filename. -/
def completes (JSON_parse : String → Option Json) (ev : Event) (filename : String) : Bool :=
  match ev with
  | .dc_message (.text raw) =>
    match JSON_parse raw with
    | some (.value data) =>
      decide (readProp data "action" = .str "download_complete") &&
        decide ((readProp data "filename").toStr = filename)
    | _ => false
  | _ => false

/-- The six values of `action` that `dc.onmessage` has a branch for. -/
def known_actions : List JsVal :=
  [.str "send_latest_intrusion_videos", .str "send_searched_intrusion_videos",
   .str "download_complete", .str "download_error", .str "send_yolox_objects", .str "error"]

/-- Text of the frame `download_complete` for `clip1.mp4` on `player1`. -/
def raw_complete_clip1 : String :=
  "\x7b\"action\":\"download_complete\",\"filename\":\"clip1.mp4\",\"video_player_id\":\"player1\"\x7d"

/-- Text of the frame `download_error` with message `network reset`. -/
def raw_error_reset : String :=
  "\x7b\"action\":\"download_error\",\"message\":\"network reset\"\x7d"

/-- Text of a frame with an action the router has no branch for. -/
def raw_unknown_action : String :=
  "\x7b\"action\":\"unknown_action\"\x7d"

/-- A stand-in for the host's `JSON.parse` on the frames used in the examples: the three
frames above and the literal `null` are parsed, any other text is taken as malformed. -/
def sample_JSON_parse (raw : String) : Option Json :=
  if raw = raw_complete_clip1 then
    some (.value [("action", .str "download_complete"), ("filename", .str "clip1.mp4"),
      ("video_player_id", .str "player1")])
  else if raw = raw_error_reset then
    some (.value [("action", .str "download_error"), ("message", .str "network reset")])
  else if raw = raw_unknown_action then
    some (.value [("action", .str "unknown_action")])
  else if raw = "null" then some .null
  else none

/-- State reached from page load when `clip1.mp4` is requested for play, one chunk arrives,
the same file is requested for save, a second chunk arrives and the completion notice of
`clip1.mp4` is handled: the file is complete, its blob holds the second chunk. -/
def clip1_completed : State :=
  (run sample_JSON_parse State.initial
    [.play_video "clip1.mp4" "player1", .dc_message (.binary [1]), .save_video "clip1.mp4",
     .dc_message (.binary [2]), .dc_message (.text raw_complete_clip1)]).state

/-- State reached from page load when `clip1.mp4` is requested for play: a transfer is active. -/
def clip1_requested : State :=
  (play_video "clip1.mp4" (.str "player1") State.initial).state

/-! ## Signaling: the handlers of `manage_webrtc_conn.js` -/

/-- Session description as `createOffer` resolves it. -/
structure SessionDescription where
  type : String
  sdp : String
deriving DecidableEq, Repr

/-- The `RTCIceCandidate` of an `icecandidate` event, field by field as the handler reads it.
Every attribute is nullable in the interface; on the candidate with the empty candidate
string, which marks the end of a generation, they are all `null`. -/
structure CandidateInfo where
  component : JsVal
  foundation : JsVal
  address : JsVal
  port : JsVal
  priority : JsVal
  protocol : JsVal
  type : JsVal
  relatedAddress : JsVal
  relatedPort : JsVal
  sdpMid : JsVal
  sdpMLineIndex : JsVal
  tcpType : JsVal
deriving DecidableEq, Repr

/-- The simplified object `ice_candidate` built by `pc.onicecandidate`. -/
structure IceCandidate where
  component : Nat
  foundation : JsVal
  address : JsVal
  port : JsVal
  priority : JsVal
  protocol : JsVal
  type : JsVal
  relatedAddress : JsVal
  relatedPort : JsVal
  sdpMid : JsVal
  sdpMLineIndex : JsVal
  tcpType : JsVal
deriving DecidableEq, Repr

/-- Envelopes the viewer sends to the signaling server, by `step`. -/
inductive Envelope where
  | step1_connect (id : String)
  | step2_send_offer (offer : SessionDescription)
  | step3_send_offer_ice (ice_candidate : IceCandidate)
deriving DecidableEq, Repr

/-- Calls the signaling handlers make on the WebSocket and on the peer connection. -/
inductive SignalEffect where
  | ws_send (envelope : Envelope)
  | createOffer
  | setLocalDescription (offer : SessionDescription)
  | setRemoteDescription (answer : JsVal)
deriving DecidableEq, Repr

/-- What can interrupt the body of a signaling handler: a thrown error, or the rejection of
an awaited promise. -/
inductive SignalError where
  | thrown (error : JsError)
  | rejected
deriving DecidableEq, Repr

/-- Result of a signaling handler: the calls made, in order, and what escaped it. -/
structure SignalOutcome where
  effects : List SignalEffect
  raised : Option SignalError
deriving DecidableEq, Repr

/-- The `catch (error) { console.error(...) }` around a body: the calls made before the
interruption stay made, nothing escapes. -/
def SignalOutcome.caught (body : SignalOutcome) : SignalOutcome :=
  { effects := body.effects, raised := none }

/-- Body of the `try` in `ws.onmessage`. -/
def ws_onmessage_body (JSON_parse : String → Option Json) (raw : String) : SignalOutcome :=
  match JSON_parse raw with
  | none => { effects := [], raised := some (.thrown .SyntaxError) }
  | some .null => { effects := [], raised := some (.thrown .TypeError) }
  | some (.value data) =>
    if readProp data "step" = .str "1_connect" then { effects := [], raised := none }
    else if readProp data "step" = .str "2_send_offer" then { effects := [], raised := none }
    else if readProp data "step" = .str "3_send_offer_ice" then
      { effects := [], raised := none }
    else if readProp data "step" = .str "4_send_answer" then
      { effects := [.setRemoteDescription (readProp data "answer")], raised := none }
    else { effects := [], raised := none }

/-- Source: `ws.onmessage`. -/
def ws_onmessage (JSON_parse : String → Option Json) (raw : String) : SignalOutcome :=
  (ws_onmessage_body JSON_parse raw).caught

/-- Body of the `try` in `send_offer`. -/
def send_offer_body (createOffer : Option SessionDescription)
    (setLocalDescription : SessionDescription → Bool) (ws_open : Bool) : SignalOutcome :=
  match createOffer with
  | none => { effects := [.createOffer], raised := some .rejected }
  | some offer =>
    if setLocalDescription offer then
      if ws_open then
        { effects := [.createOffer, .setLocalDescription offer,
            .ws_send (.step2_send_offer offer)]
          raised := none }
      else { effects := [.createOffer, .setLocalDescription offer], raised := none }
    else { effects := [.createOffer, .setLocalDescription offer], raised := some .rejected }

/-- Source: `send_offer`. -/
def send_offer (createOffer : Option SessionDescription)
    (setLocalDescription : SessionDescription → Bool) (ws_open : Bool) : SignalOutcome :=
  (send_offer_body createOffer setLocalDescription ws_open).caught

/-- Source: `ws.onopen`: the connect envelope, then `send_offer()`. -/
def ws_onopen (createOffer : Option SessionDescription)
    (setLocalDescription : SessionDescription → Bool) (ws_open : Bool) : SignalOutcome :=
  { effects := .ws_send (.step1_connect "web_interface") ::
      (send_offer createOffer setLocalDescription ws_open).effects
    raised := (send_offer createOffer setLocalDescription ws_open).raised }

/-- Source: `pc.onicecandidate`; the argument is `event.candidate`, `none` for `null`.
`toLowerCase` exists on strings only: on any other `component` the call throws. No character
outside ASCII lowers to a letter of `rtp`, so the ASCII `toLower` decides the comparison. -/
def pc_onicecandidate (candidate : Option CandidateInfo) : SignalOutcome :=
  match candidate with
  | none => { effects := [], raised := none }
  | some candidate_info =>
    match candidate_info.component with
    | .str component =>
      { effects := [.ws_send (.step3_send_offer_ice
          { component := if component.toLower = "rtp" then 1 else 2
            foundation := candidate_info.foundation
            address := candidate_info.address
            port := candidate_info.port
            priority := candidate_info.priority
            protocol := candidate_info.protocol
            type := candidate_info.type
            relatedAddress := candidate_info.relatedAddress
            relatedPort := candidate_info.relatedPort
            sdpMid := candidate_info.sdpMid
            sdpMLineIndex := candidate_info.sdpMLineIndex
            tcpType := candidate_info.tcpType })]
        raised := none }
    | _ => { effects := [], raised := some (.thrown .TypeError) }

/-- Everything that can happen in a session: the socket opens (with the outcomes of the two
promises of `send_offer` and of its open check), a signaling message arrives, the peer
connection reports a candidate, or the transfer manager gets one of its events. -/
inductive SessionEvent where
  | ws_open (createOffer : Option SessionDescription) (setLocalDescription : Bool)
      (ws_open : Bool)
  | ws_message (data : String)
  | icecandidate (candidate : Option CandidateInfo)
  | transfer (ev : Event)
deriving DecidableEq, Repr

/-- Whether the event is an `icecandidate` event. -/
def SessionEvent.is_icecandidate : SessionEvent → Bool
  | .icecandidate _ => true
  | _ => false

/-- Whether the event is an `icecandidate` event whose `event.candidate` is not `null`. -/
def SessionEvent.has_candidate : SessionEvent → Bool
  | .icecandidate (some _) => true
  | _ => false

/-- Whether the call is the send of a `3_send_offer_ice` envelope. -/
def SignalEffect.is_ice_send : SignalEffect → Bool
  | .ws_send (.step3_send_offer_ice _) => true
  | _ => false

/-- Whether the call is made on the peer connection. -/
def SignalEffect.is_pc_call : SignalEffect → Bool
  | .ws_send _ => false
  | _ => true

/-- A session as it can be observed: the globals of the transfer manager, the effects of the
transfer manager, the calls of the signaling handlers, and what escaped a handler. -/
structure SessionTrace where
  state : State
  effects : List Effect
  signaling : List SignalEffect
  errors : List SignalError
deriving DecidableEq, Repr

/-- The signaling handler of an event that is not a transfer event. -/
def signal_step (JSON_parse : String → Option Json) : SessionEvent → SignalOutcome
  | .ws_open createOffer setLocalDescription ws_open =>
    ws_onopen createOffer (fun _ => setLocalDescription) ws_open
  | .ws_message data => ws_onmessage JSON_parse data
  | .icecandidate candidate => pc_onicecandidate candidate
  | .transfer _ => { effects := [], raised := none }

/-- Run session events in arrival order from the given globals. -/
def session_run (JSON_parse : String → Option Json) (st : State) :
    List SessionEvent → SessionTrace
  | [] => { state := st, effects := [], signaling := [], errors := [] }
  | .transfer ev :: rest =>
    let o := step JSON_parse st ev
    let t := session_run JSON_parse o.state rest
    { state := t.state, effects := o.effects ++ t.effects, signaling := t.signaling
      errors := (o.raised.map SignalError.thrown).toList ++ t.errors }
  | ev :: rest =>
    let o := signal_step JSON_parse ev
    let t := session_run JSON_parse st rest
    { state := t.state, effects := t.effects, signaling := o.effects ++ t.signaling
      errors := o.raised.toList ++ t.errors }

/-- A host candidate as the browser reports it. -/
def sample_candidate : CandidateInfo :=
  { component := .str "rtp", foundation := .str "1", address := .str "192.0.2.7"
    port := .other "50000", priority := .other "2122260223", protocol := .str "udp"
    type := .str "host", relatedAddress := .null, relatedPort := .null
    sdpMid := .str "0", sdpMLineIndex := .other "0", tcpType := .null }

/-- The candidate that marks the end of a generation: empty candidate string, so every parsed
attribute is `null`. -/
def end_of_generation_candidate : CandidateInfo :=
  { component := .null, foundation := .null, address := .null, port := .null
    priority := .null, protocol := .null, type := .null, relatedAddress := .null
    relatedPort := .null, sdpMid := .str "0", sdpMLineIndex := .other "0", tcpType := .null }

/-- Text of a signaling envelope that carries an answer. -/
def raw_answer : String :=
  "\x7b\"step\":\"4_send_answer\",\"answer\":\x7b\"type\":\"answer\",\"sdp\":\"v=0\"\x7d\x7d"

/-- Text of the signaling server's acknowledgement of the offer. -/
def raw_offer_ack : String :=
  "\x7b\"step\":\"2_send_offer\"\x7d"

/-- A stand-in for the host's `JSON.parse` on signaling payloads: the two envelopes above
are parsed (the answer, an object, is kept as the string JavaScript converts it to), any
other text is taken as malformed. -/
def sample_signal_parse (raw : String) : Option Json :=
  if raw = raw_answer then
    some (.value [("step", .str "4_send_answer"), ("answer", .other "[object Object]")])
  else if raw = raw_offer_ack then some (.value [("step", .str "2_send_offer")])
  else none

/-- An offer as `createOffer` resolves it. -/
def sample_offer : SessionDescription :=
  { type := "offer", sdp := "v=0" }

/-! ## Lemmas on the map of entries -/

theorem Videos.get_set_self (videos : Videos) (filename : String) (entry : VideoEntry) :
    (videos.set filename entry).get filename = some entry := by
  induction videos with
  | nil => simp [Videos.set, Videos.get]
  | cons head rest ih =>
    obtain ⟨k, v⟩ := head
    by_cases h : k = filename
    · simp [Videos.set, Videos.get, h]
    · simp [Videos.set, Videos.get, h, ih]

theorem Videos.get_set_other (videos : Videos) (filename other : String) (entry : VideoEntry)
    (h : filename ≠ other) : (videos.set filename entry).get other = videos.get other := by
  induction videos with
  | nil => simp [Videos.set, Videos.get, h]
  | cons head rest ih =>
    obtain ⟨k, v⟩ := head
    by_cases hk : k = filename
    · subst hk
      simp [Videos.set, Videos.get, h]
    · by_cases hko : k = other
      · subst hko
        simp [Videos.set, Videos.get, hk]
      · simp [Videos.set, Videos.get, hk, hko, ih]

theorem Videos.set_set (videos : Videos) (filename : String) (a b : VideoEntry) :
    (videos.set filename a).set filename b = videos.set filename b := by
  induction videos with
  | nil => simp [Videos.set]
  | cons head rest ih =>
    obtain ⟨k, v⟩ := head
    by_cases h : k = filename
    · simp [Videos.set, h]
    · simp [Videos.set, h, ih]

/-! ## The functions of the transfer manager, case by case -/

theorem play_video_of_blob (st : State) (filename : String) (video_player_id : JsVal)
    (entry : VideoEntry) (blob : Blob) (hget : st.downloaded_videos.get filename = some entry)
    (hblob : entry.blob = some blob) :
    play_video filename video_player_id st =
      { state := { st with downloaded_videos :=
          st.downloaded_videos.set filename { entry with play_requested := false } }
        effects := [.render video_player_id.toStr filename blob]
        raised := none } := by
  simp [play_video, hget, hblob]

theorem State.inherits_of_get (st : State) (filename : String) (entry : VideoEntry)
    (hget : st.downloaded_videos.get filename = some entry) : st.inherits filename = false := by
  simp [State.inherits, hget]

theorem State.inherits_of_not_mem (st : State) (filename : String)
    (h : filename ∉ Object_prototype_names) : st.inherits filename = false := by
  simp [State.inherits, h]

theorem play_video_of_inherited (st : State) (filename : String) (video_player_id : JsVal)
    (h : st.inherits filename = true) :
    play_video filename video_player_id st =
      { state := st
        effects := [.title video_player_id.toStr filename]
        raised := some .TypeError } := by
  unfold State.inherits at h
  cases hget : st.downloaded_videos.get filename with
  | some entry => simp [hget] at h
  | none =>
    simp [hget] at h
    simp [play_video, hget, h]

theorem save_video_of_inherited (st : State) (filename : String)
    (h : st.inherits filename = true) :
    save_video filename st = { state := st, effects := [], raised := some .TypeError } := by
  unfold State.inherits at h
  cases hget : st.downloaded_videos.get filename with
  | some entry => simp [hget] at h
  | none =>
    simp [hget] at h
    simp [save_video, hget, h]

theorem play_video_of_no_blob (st : State) (filename : String) (video_player_id : JsVal)
    (h : st.blob filename = none) (hown : st.inherits filename = false) :
    play_video filename video_player_id st =
      { state :=
          { downloaded_videos := st.downloaded_videos.set filename
              { blob := none, play_requested := true
                save_requested := st.save_requested filename }
            fileChunks := []
            isDownloading := true }
        effects := [.send (.request_download video_player_id.orNull filename)]
        raised := none } := by
  unfold State.blob at h
  unfold State.inherits at hown
  unfold play_video State.save_requested
  cases hget : st.downloaded_videos.get filename with
  | none =>
    simp [hget] at hown
    simp [request_download, VideoEntry.empty, hown]
  | some entry =>
    rw [hget] at h
    simp only at h
    simp [h, request_download]

theorem save_video_of_blob (st : State) (filename : String)
    (entry : VideoEntry) (blob : Blob) (hget : st.downloaded_videos.get filename = some entry)
    (hblob : entry.blob = some blob) :
    save_video filename st =
      { state := { st with downloaded_videos :=
          st.downloaded_videos.set filename { entry with save_requested := false } }
        effects := [.persist filename blob]
        raised := none } := by
  simp [save_video, hget, hblob]

theorem save_video_of_no_blob (st : State) (filename : String)
    (h : st.blob filename = none) (hown : st.inherits filename = false) :
    save_video filename st =
      { state :=
          { downloaded_videos := st.downloaded_videos.set filename
              { blob := none, play_requested := st.play_requested filename
                save_requested := true }
            fileChunks := []
            isDownloading := true }
        effects := [.send (.request_download .null filename)]
        raised := none } := by
  unfold State.blob at h
  unfold State.inherits at hown
  unfold save_video State.play_requested
  cases hget : st.downloaded_videos.get filename with
  | none =>
    simp [hget] at hown
    simp [request_download, VideoEntry.empty, JsVal.orNull, hown]
  | some entry =>
    rw [hget] at h
    simp only at h
    simp [h, request_download, JsVal.orNull]

theorem State.blob_mk_set (videos : Videos) (filename : String) (entry : VideoEntry)
    (buffer : List Bytes) (downloading : Bool) :
    State.blob { downloaded_videos := videos.set filename entry, fileChunks := buffer
                 isDownloading := downloading } filename = entry.blob := by
  simp [State.blob, Videos.get_set_self]

theorem State.play_requested_mk_set (videos : Videos) (filename : String) (entry : VideoEntry)
    (buffer : List Bytes) (downloading : Bool) :
    State.play_requested { downloaded_videos := videos.set filename entry, fileChunks := buffer
                           isDownloading := downloading } filename = entry.play_requested := by
  simp [State.play_requested, Videos.get_set_self]

theorem State.save_requested_mk_set (videos : Videos) (filename : String) (entry : VideoEntry)
    (buffer : List Bytes) (downloading : Bool) :
    State.save_requested { downloaded_videos := videos.set filename entry, fileChunks := buffer
                           isDownloading := downloading } filename = entry.save_requested := by
  simp [State.save_requested, Videos.get_set_self]

theorem JsVal.beq_null_eq (v : JsVal) : (v == JsVal.null) = decide (v = JsVal.null) := by
  cases v <;> rfl

/-- Closed form of `handle_download_completed` on an inherited name without an own entry: the
buffer is emptied and nothing else is seen. -/
theorem handle_download_completed_of_inherited (st : State) (filename : String)
    (video_player_id : JsVal) (h : st.inherits filename = true) :
    handle_download_completed filename video_player_id st =
      { state :=
          { downloaded_videos := st.downloaded_videos, fileChunks := [], isDownloading := false }
        effects := []
        raised := none } := by
  unfold State.inherits at h
  cases hget : st.downloaded_videos.get filename with
  | some entry => simp [hget] at h
  | none =>
    simp [hget] at h
    simp [handle_download_completed, hget, h, State.play_requested, State.save_requested,
      Outcome.andThen, Outcome.skip]

/-- Closed form of `handle_download_completed` in every other case: the new blob is stored,
the render happens when play was requested and a player id came along, the persist when save
was requested. -/
theorem handle_download_completed_eq (st : State) (filename : String)
    (video_player_id : JsVal) (hown : st.inherits filename = false) :
    handle_download_completed filename video_player_id st =
      { state :=
          { downloaded_videos := st.downloaded_videos.set filename
              { blob := some st.assembled
                play_requested := st.play_requested filename && (video_player_id.orNull == .null)
                save_requested := false }
            fileChunks := []
            isDownloading := false }
        effects :=
          (if st.play_requested filename && video_player_id.orNull != .null then
            [.render video_player_id.orNull.toStr filename st.assembled] else []) ++
          (if st.save_requested filename then [.persist filename st.assembled] else [])
        raised := none } := by
  unfold State.inherits at hown
  unfold handle_download_completed State.assembled
  cases hget : st.downloaded_videos.get filename with
  | none =>
    simp [hget] at hown
    cases video_player_id <;>
      simp [State.play_requested, State.save_requested, hget, Videos.get_set_self,
        Videos.set_set, VideoEntry.empty, Outcome.andThen, Outcome.skip, JsVal.orNull, hown]
  | some entry =>
    obtain ⟨b, pr, sr⟩ := entry
    cases video_player_id <;> cases pr <;> cases sr <;>
      simp [State.play_requested, State.save_requested, hget, Videos.get_set_self,
        Videos.set_set, Outcome.andThen, Outcome.skip, JsVal.orNull, play_video, save_video,
        JsVal.beq_null_eq]

/-! ## Sequences of events -/

theorem run_append (JSON_parse : String → Option Json) (st : State) (first rest : List Event) :
    run JSON_parse st (first ++ rest) =
      { state := (run JSON_parse (run JSON_parse st first).state rest).state
        effects := (run JSON_parse st first).effects ++
          (run JSON_parse (run JSON_parse st first).state rest).effects
        errors := (run JSON_parse st first).errors ++
          (run JSON_parse (run JSON_parse st first).state rest).errors } := by
  induction first generalizing st with
  | nil => simp [run]
  | cons ev more ih => simp [run, ih, List.append_assoc]

theorem run_chunk_events (JSON_parse : String → Option Json) (chunks : List Bytes) (st : State)
    (h : st.isDownloading = true) :
    run JSON_parse st (chunk_events chunks) =
      { state := { st with fileChunks := st.fileChunks ++ chunks }
        effects := []
        errors := [] } := by
  obtain ⟨videos, buffer, downloading⟩ := st
  simp only at h
  subst h
  induction chunks generalizing buffer with
  | nil => simp [chunk_events, run]
  | cons chunk more ih =>
    have hstep := ih (buffer ++ [chunk])
    simp only [chunk_events] at hstep
    simp [chunk_events, run, step, dc_onmessage, Outcome.skip, hstep]

theorem run_single (JSON_parse : String → Option Json) (st : State) (ev : Event) :
    run JSON_parse st [ev] =
      { state := (step JSON_parse st ev).state
        effects := (step JSON_parse st ev).effects
        errors := (step JSON_parse st ev).raised.toList } := by
  simp [run]

theorem run_cons (JSON_parse : String → Option Json) (st : State) (ev : Event)
    (rest : List Event) :
    run JSON_parse st (ev :: rest) =
      { state := (run JSON_parse (step JSON_parse st ev).state rest).state
        effects := (step JSON_parse st ev).effects ++
          (run JSON_parse (step JSON_parse st ev).state rest).effects
        errors := (step JSON_parse st ev).raised.toList ++
          (run JSON_parse (step JSON_parse st ev).state rest).errors } := by
  simp [run]

/-! ## The router, branch by branch -/

theorem dc_onmessage_download_complete (JSON_parse : String → Option Json) (st : State)
    (raw : String) (data : List (String × JsVal))
    (hparse : JSON_parse raw = some (.value data))
    (haction : readProp data "action" = .str "download_complete") :
    dc_onmessage JSON_parse st (.text raw) =
      handle_download_completed (readProp data "filename").toStr
        (readProp data "video_player_id") st := by
  simp [dc_onmessage, hparse, haction]

theorem dc_onmessage_download_error (JSON_parse : String → Option Json) (st : State)
    (raw : String) (data : List (String × JsVal))
    (hparse : JSON_parse raw = some (.value data))
    (haction : readProp data "action" = .str "download_error") :
    dc_onmessage JSON_parse st (.text raw) =
      { state := { st with isDownloading := false, fileChunks := [] }
        effects := [.alert ("File transfer error: " ++ (readProp data "message").toStr)]
        raised := none } := by
  simp [dc_onmessage, hparse, haction]

theorem Videos.get_set (videos : Videos) (filename other : String) (entry : VideoEntry) :
    (videos.set filename entry).get other =
      if filename = other then some entry else videos.get other := by
  by_cases h : filename = other
  · subst h
    simp [Videos.get_set_self]
  · simp [h, Videos.get_set_other _ _ _ _ h]

theorem play_video_blob (st : State) (filename : String) (video_player_id : JsVal)
    (other : String) :
    (play_video filename video_player_id st).state.blob other = st.blob other := by
  cases hin : st.inherits filename with
  | true => rw [play_video_of_inherited _ _ _ hin]
  | false =>
    unfold State.inherits at hin
    unfold play_video State.blob
    cases hget : st.downloaded_videos.get filename with
    | none =>
      simp [hget] at hin
      by_cases h : filename = other
      · subst h
        simp [request_download, Videos.get_set, VideoEntry.empty, hget, hin]
      · simp [request_download, Videos.get_set, h, hin]
    | some entry =>
      obtain ⟨blob, played, saved⟩ := entry
      by_cases h : filename = other
      · subst h
        cases blob <;> simp [request_download, Videos.get_set, hget]
      · cases blob <;> simp [request_download, Videos.get_set, h]

theorem save_video_blob (st : State) (filename : String) (other : String) :
    (save_video filename st).state.blob other = st.blob other := by
  cases hin : st.inherits filename with
  | true => rw [save_video_of_inherited _ _ hin]
  | false =>
    unfold State.inherits at hin
    unfold save_video State.blob
    cases hget : st.downloaded_videos.get filename with
    | none =>
      simp [hget] at hin
      by_cases h : filename = other
      · subst h
        simp [request_download, Videos.get_set, VideoEntry.empty, hget, hin]
      · simp [request_download, Videos.get_set, h, hin]
    | some entry =>
      obtain ⟨blob, played, saved⟩ := entry
      by_cases h : filename = other
      · subst h
        cases blob <;> simp [request_download, Videos.get_set, hget]
      · cases blob <;> simp [request_download, Videos.get_set, h]

theorem handle_download_completed_blob (st : State) (filename : String)
    (video_player_id : JsVal) (other : String) :
    (handle_download_completed filename video_player_id st).state.blob other =
      if filename = other ∧ st.inherits filename = false then some st.assembled
      else st.blob other := by
  cases hin : st.inherits filename with
  | true =>
    rw [handle_download_completed_of_inherited _ _ _ hin]
    simp [State.blob]
  | false =>
    rw [handle_download_completed_eq _ _ _ hin]
    by_cases h : filename = other
    · subst h
      simp [State.blob, Videos.get_set]
    · simp [State.blob, Videos.get_set, h]

/-- The JSON literal `null` parses, and reading `data.action` on it throws a `TypeError`
that escapes the handler; the state is as it was. -/
theorem dc_onmessage_null (JSON_parse : String → Option Json) (st : State) (raw : String)
    (hparse : JSON_parse raw = some .null) :
    dc_onmessage JSON_parse st (.text raw) =
      { state := st, effects := [], raised := some .TypeError } := by
  simp [dc_onmessage, hparse]

/-! ## Flags and effects of the transfer manager, event by event -/

theorem play_video_play_requested (st : State) (filename : String) (video_player_id : JsVal)
    (other : String) :
    (play_video filename video_player_id st).state.play_requested other =
      if filename = other ∧ st.inherits filename = false then (st.blob other).isNone
      else st.play_requested other := by
  cases hin : st.inherits filename with
  | true =>
    rw [play_video_of_inherited _ _ _ hin]
    simp
  | false =>
    unfold State.inherits at hin
    unfold play_video State.play_requested State.blob
    cases hget : st.downloaded_videos.get filename with
    | none =>
      simp [hget] at hin
      by_cases h : filename = other
      · subst h
        simp [request_download, Videos.get_set, VideoEntry.empty, hget, hin]
      · simp [request_download, Videos.get_set, h, hin]
    | some entry =>
      obtain ⟨blob, played, saved⟩ := entry
      by_cases h : filename = other
      · subst h
        cases blob <;> simp [request_download, Videos.get_set, hget]
      · cases blob <;> simp [request_download, Videos.get_set, h]

theorem play_video_save_requested (st : State) (filename : String) (video_player_id : JsVal)
    (other : String) :
    (play_video filename video_player_id st).state.save_requested other =
      st.save_requested other := by
  cases hin : st.inherits filename with
  | true => rw [play_video_of_inherited _ _ _ hin]
  | false =>
    unfold State.inherits at hin
    unfold play_video State.save_requested
    cases hget : st.downloaded_videos.get filename with
    | none =>
      simp [hget] at hin
      by_cases h : filename = other
      · subst h
        simp [request_download, Videos.get_set, VideoEntry.empty, hget, hin]
      · simp [request_download, Videos.get_set, h, hin]
    | some entry =>
      obtain ⟨blob, played, saved⟩ := entry
      by_cases h : filename = other
      · subst h
        cases blob <;> simp [request_download, Videos.get_set, hget]
      · cases blob <;> simp [request_download, Videos.get_set, h]

theorem save_video_save_requested (st : State) (filename : String) (other : String) :
    (save_video filename st).state.save_requested other =
      if filename = other ∧ st.inherits filename = false then (st.blob other).isNone
      else st.save_requested other := by
  cases hin : st.inherits filename with
  | true =>
    rw [save_video_of_inherited _ _ hin]
    simp
  | false =>
    unfold State.inherits at hin
    unfold save_video State.save_requested State.blob
    cases hget : st.downloaded_videos.get filename with
    | none =>
      simp [hget] at hin
      by_cases h : filename = other
      · subst h
        simp [request_download, Videos.get_set, VideoEntry.empty, hget, hin]
      · simp [request_download, Videos.get_set, h, hin]
    | some entry =>
      obtain ⟨blob, played, saved⟩ := entry
      by_cases h : filename = other
      · subst h
        cases blob <;> simp [request_download, Videos.get_set, hget]
      · cases blob <;> simp [request_download, Videos.get_set, h]

theorem save_video_play_requested (st : State) (filename : String) (other : String) :
    (save_video filename st).state.play_requested other = st.play_requested other := by
  cases hin : st.inherits filename with
  | true => rw [save_video_of_inherited _ _ hin]
  | false =>
    unfold State.inherits at hin
    unfold save_video State.play_requested
    cases hget : st.downloaded_videos.get filename with
    | none =>
      simp [hget] at hin
      by_cases h : filename = other
      · subst h
        simp [request_download, Videos.get_set, VideoEntry.empty, hget, hin]
      · simp [request_download, Videos.get_set, h, hin]
    | some entry =>
      obtain ⟨blob, played, saved⟩ := entry
      by_cases h : filename = other
      · subst h
        cases blob <;> simp [request_download, Videos.get_set, hget]
      · cases blob <;> simp [request_download, Videos.get_set, h]

theorem play_video_effects (st : State) (filename : String) (video_player_id : JsVal) :
    (play_video filename video_player_id st).effects =
      if st.inherits filename then [.title video_player_id.toStr filename]
      else match st.blob filename with
        | some blob => [.render video_player_id.toStr filename blob]
        | none => [.send (.request_download video_player_id.orNull filename)] := by
  cases hin : st.inherits filename with
  | true =>
    rw [play_video_of_inherited _ _ _ hin]
    simp
  | false =>
    unfold State.inherits at hin
    unfold play_video State.blob
    cases hget : st.downloaded_videos.get filename with
    | none =>
      simp [hget] at hin
      simp [request_download, hin]
    | some entry =>
      obtain ⟨blob, played, saved⟩ := entry
      cases blob <;> simp [request_download]

theorem save_video_effects (st : State) (filename : String) :
    (save_video filename st).effects =
      if st.inherits filename then []
      else match st.blob filename with
        | some blob => [.persist filename blob]
        | none => [.send (.request_download .null filename)] := by
  cases hin : st.inherits filename with
  | true =>
    rw [save_video_of_inherited _ _ hin]
    simp
  | false =>
    unfold State.inherits at hin
    unfold save_video State.blob
    cases hget : st.downloaded_videos.get filename with
    | none =>
      simp [hget] at hin
      simp [request_download, JsVal.orNull, hin]
    | some entry =>
      obtain ⟨blob, played, saved⟩ := entry
      cases blob <;> simp [request_download, JsVal.orNull]

/-- A frame either goes to `handle_download_completed` or leaves `downloaded_videos` alone. -/
theorem dc_onmessage_completes_or_keeps_videos (JSON_parse : String → Option Json)
    (st : State) (frame : Frame) :
    (∃ filename video_player_id, dc_onmessage JSON_parse st frame =
        handle_download_completed filename video_player_id st) ∨
    (dc_onmessage JSON_parse st frame).state.downloaded_videos = st.downloaded_videos := by
  cases frame with
  | binary chunk =>
    right
    cases h : st.isDownloading <;> simp [dc_onmessage, h, Outcome.skip]
  | text raw =>
    cases hparse : JSON_parse raw with
    | none => right; simp [dc_onmessage, hparse]
    | some parsed =>
      cases parsed with
      | null => right; simp [dc_onmessage, hparse]
      | value data =>
        by_cases h3 : readProp data "action" = .str "download_complete"
        · left
          exact ⟨_, _, dc_onmessage_download_complete _ _ _ _ hparse h3⟩
        · right
          simp only [dc_onmessage, hparse, h3, if_false]
          split_ifs <;> rfl

theorem State.play_requested_congr (s t : State) (filename : String)
    (h : s.downloaded_videos = t.downloaded_videos) :
    s.play_requested filename = t.play_requested filename := by
  simp [State.play_requested, h]

theorem State.save_requested_congr (s t : State) (filename : String)
    (h : s.downloaded_videos = t.downloaded_videos) :
    s.save_requested filename = t.save_requested filename := by
  simp [State.save_requested, h]

theorem State.inherits_of_play_requested (st : State) (filename : String)
    (h : st.play_requested filename = true) : st.inherits filename = false := by
  unfold State.play_requested at h
  cases hget : st.downloaded_videos.get filename with
  | some entry => exact State.inherits_of_get st filename entry hget
  | none => simp [hget] at h

theorem State.inherits_of_save_requested (st : State) (filename : String)
    (h : st.save_requested filename = true) : st.inherits filename = false := by
  unfold State.save_requested at h
  cases hget : st.downloaded_videos.get filename with
  | some entry => exact State.inherits_of_get st filename entry hget
  | none => simp [hget] at h

theorem State.inherits_of_blob (st : State) (filename : String) (blob : Blob)
    (h : st.blob filename = some blob) : st.inherits filename = false := by
  unfold State.blob at h
  cases hget : st.downloaded_videos.get filename with
  | some entry => exact State.inherits_of_get st filename entry hget
  | none => simp [hget] at h

theorem State.inherits_mk_set (videos : Videos) (filename : String) (entry : VideoEntry)
    (buffer : List Bytes) (downloading : Bool) :
    State.inherits { downloaded_videos := videos.set filename entry, fileChunks := buffer
                     isDownloading := downloading } filename = false := by
  simp [State.inherits, Videos.get_set_self]

theorem State.flags_of_inherits (st : State) (filename : String)
    (h : st.inherits filename = true) :
    st.play_requested filename = false ∧ st.save_requested filename = false := by
  unfold State.inherits at h
  cases hget : st.downloaded_videos.get filename with
  | some entry => simp [hget] at h
  | none => simp [State.play_requested, State.save_requested, hget]

theorem handle_download_completed_play_requested (st : State) (filename : String)
    (video_player_id : JsVal) (other : String) :
    (handle_download_completed filename video_player_id st).state.play_requested other =
      if filename = other then
        st.play_requested other && (video_player_id.orNull == .null)
      else st.play_requested other := by
  cases hin : st.inherits filename with
  | true =>
    rw [handle_download_completed_of_inherited _ _ _ hin]
    by_cases h : filename = other
    · subst h
      have hflag := (State.flags_of_inherits st filename hin).1
      simp only [State.play_requested] at hflag ⊢
      simp [hflag]
    · simp [h, State.play_requested]
  | false =>
    rw [handle_download_completed_eq _ _ _ hin]
    by_cases h : filename = other
    · subst h
      simp [State.play_requested, Videos.get_set]
    · simp [State.play_requested, Videos.get_set, h]

theorem handle_download_completed_save_requested (st : State) (filename : String)
    (video_player_id : JsVal) (other : String) :
    (handle_download_completed filename video_player_id st).state.save_requested other =
      if filename = other then false else st.save_requested other := by
  cases hin : st.inherits filename with
  | true =>
    rw [handle_download_completed_of_inherited _ _ _ hin]
    by_cases h : filename = other
    · subst h
      have hflag := (State.flags_of_inherits st filename hin).2
      simp only [State.save_requested] at hflag ⊢
      simp [hflag]
    · simp [h, State.save_requested]
  | false =>
    rw [handle_download_completed_eq _ _ _ hin]
    by_cases h : filename = other
    · subst h
      simp [State.save_requested, Videos.get_set]
    · simp [State.save_requested, Videos.get_set, h]

theorem handle_download_completed_effects (st : State) (filename : String)
    (video_player_id : JsVal) :
    (handle_download_completed filename video_player_id st).effects =
      (if st.play_requested filename && video_player_id.orNull != .null then
        [.render video_player_id.orNull.toStr filename st.assembled] else []) ++
      (if st.save_requested filename then [.persist filename st.assembled] else []) := by
  cases hin : st.inherits filename with
  | true =>
    rw [handle_download_completed_of_inherited _ _ _ hin]
    simp [(State.flags_of_inherits st filename hin).1,
      (State.flags_of_inherits st filename hin).2]
  | false => rw [handle_download_completed_eq _ _ _ hin]

/-! ## The signaling handlers, case by case -/

theorem pc_onicecandidate_of_string_component (candidate_info : CandidateInfo)
    (component : String) (h : candidate_info.component = .str component) :
    pc_onicecandidate (some candidate_info) =
      { effects := [.ws_send (.step3_send_offer_ice
          { component := if component.toLower = "rtp" then 1 else 2
            foundation := candidate_info.foundation
            address := candidate_info.address
            port := candidate_info.port
            priority := candidate_info.priority
            protocol := candidate_info.protocol
            type := candidate_info.type
            relatedAddress := candidate_info.relatedAddress
            relatedPort := candidate_info.relatedPort
            sdpMid := candidate_info.sdpMid
            sdpMLineIndex := candidate_info.sdpMLineIndex
            tcpType := candidate_info.tcpType })]
        raised := none } := by
  simp [pc_onicecandidate, h]

theorem pc_onicecandidate_of_null :
    pc_onicecandidate none = { effects := [], raised := none } := rfl

theorem pc_onicecandidate_effects_are_ice_sends (candidate : Option CandidateInfo) :
    (pc_onicecandidate candidate).effects.filter (fun e => !e.is_ice_send) = [] := by
  cases candidate with
  | none => rfl
  | some candidate_info =>
    cases h : candidate_info.component <;>
      simp [pc_onicecandidate, h, SignalEffect.is_ice_send]

theorem ws_onmessage_effects_no_ice_send (JSON_parse : String → Option Json) (raw : String) :
    (ws_onmessage JSON_parse raw).effects.filter (fun e => !e.is_ice_send) =
      (ws_onmessage JSON_parse raw).effects := by
  cases hparse : JSON_parse raw with
  | none => simp [ws_onmessage, ws_onmessage_body, SignalOutcome.caught, hparse]
  | some parsed =>
    cases parsed with
    | null => simp [ws_onmessage, ws_onmessage_body, SignalOutcome.caught, hparse]
    | value data =>
      simp only [ws_onmessage, ws_onmessage_body, SignalOutcome.caught, hparse]
      split_ifs <;> simp [SignalEffect.is_ice_send]

theorem ws_onopen_effects_no_ice_send (createOffer : Option SessionDescription)
    (setLocalDescription : SessionDescription → Bool) (ws_open : Bool) :
    (ws_onopen createOffer setLocalDescription ws_open).effects.filter
        (fun e => !e.is_ice_send) =
      (ws_onopen createOffer setLocalDescription ws_open).effects := by
  cases createOffer with
  | none => simp [ws_onopen, send_offer, send_offer_body, SignalOutcome.caught,
      SignalEffect.is_ice_send]
  | some offer =>
    cases hset : setLocalDescription offer <;> cases ws_open <;>
      simp [ws_onopen, send_offer, send_offer_body, SignalOutcome.caught,
        SignalEffect.is_ice_send, hset]

/-- Ordering independence of the candidates: take any sequence of session events and drop
its `icecandidate` events. The globals of the transfer manager at the end, the effects of
the transfer manager and the calls of the signaling handlers other than the sends of
`3_send_offer_ice` envelopes are the same with and without them; in particular the calls on
the peer connection are the same. -/
theorem session_run_ignores_candidates (JSON_parse : String → Option Json) (st : State)
    (events : List SessionEvent) :
    (session_run JSON_parse st (events.filter fun ev => !ev.is_icecandidate)).state =
      (session_run JSON_parse st events).state ∧
    (session_run JSON_parse st (events.filter fun ev => !ev.is_icecandidate)).effects =
      (session_run JSON_parse st events).effects ∧
    (session_run JSON_parse st (events.filter fun ev => !ev.is_icecandidate)).signaling =
      (session_run JSON_parse st events).signaling.filter (fun e => !e.is_ice_send) := by
  induction events generalizing st with
  | nil => simp [session_run]
  | cons ev rest ih =>
    cases ev with
    | transfer tev =>
      obtain ⟨h1, h2, h3⟩ := ih (step JSON_parse st tev).state
      rw [List.filter_cons_of_pos (by rfl)]
      simp [session_run, h1, h2, h3]
    | icecandidate candidate =>
      obtain ⟨h1, h2, h3⟩ := ih st
      rw [List.filter_cons_of_neg (by simp [SessionEvent.is_icecandidate])]
      simp [session_run, signal_step, h1, h2, h3, pc_onicecandidate_effects_are_ice_sends]
    | ws_message data =>
      obtain ⟨h1, h2, h3⟩ := ih st
      rw [List.filter_cons_of_pos (by rfl)]
      simp [session_run, signal_step, h1, h2, h3, ws_onmessage_effects_no_ice_send]
    | ws_open createOffer setLocalDescription still_open =>
      obtain ⟨h1, h2, h3⟩ := ih st
      rw [List.filter_cons_of_pos (by rfl)]
      simp [session_run, signal_step, h1, h2, h3, ws_onopen_effects_no_ice_send]

theorem ws_onmessage_effects_ice_sends (JSON_parse : String → Option Json) (raw : String) :
    (ws_onmessage JSON_parse raw).effects.filter (fun e => e.is_ice_send) = [] := by
  cases hparse : JSON_parse raw with
  | none => simp [ws_onmessage, ws_onmessage_body, SignalOutcome.caught, hparse]
  | some parsed =>
    cases parsed with
    | null => simp [ws_onmessage, ws_onmessage_body, SignalOutcome.caught, hparse]
    | value data =>
      simp only [ws_onmessage, ws_onmessage_body, SignalOutcome.caught, hparse]
      split_ifs <;> simp [SignalEffect.is_ice_send]

theorem ws_onopen_effects_ice_sends (createOffer : Option SessionDescription)
    (setLocalDescription : SessionDescription → Bool) (ws_open : Bool) :
    (ws_onopen createOffer setLocalDescription ws_open).effects.filter
        (fun e => e.is_ice_send) = [] := by
  cases createOffer with
  | none => simp [ws_onopen, send_offer, send_offer_body, SignalOutcome.caught,
      SignalEffect.is_ice_send]
  | some offer =>
    cases hset : setLocalDescription offer <;> cases ws_open <;>
      simp [ws_onopen, send_offer, send_offer_body, SignalOutcome.caught,
        SignalEffect.is_ice_send, hset]

/-- When every candidate of a sequence has a string as component, the sequence sends as many
`3_send_offer_ice` envelopes as it has events with a candidate, wherever they stand. -/
theorem session_run_ice_sends (JSON_parse : String → Option Json) (st : State)
    (events : List SessionEvent)
    (hcomponent : ∀ c, SessionEvent.icecandidate (some c) ∈ events →
      ∃ component, c.component = .str component) :
    ((session_run JSON_parse st events).signaling.filter fun e => e.is_ice_send).length =
      (events.filter fun ev => ev.has_candidate).length := by
  induction events generalizing st with
  | nil => simp [session_run]
  | cons ev rest ih =>
    have hrest : ∀ c, SessionEvent.icecandidate (some c) ∈ rest →
        ∃ component, c.component = .str component :=
      fun c hc => hcomponent c (List.mem_cons_of_mem _ hc)
    cases ev with
    | transfer tev =>
      rw [List.filter_cons_of_neg (by simp [SessionEvent.has_candidate])]
      simp [session_run, ih _ hrest]
    | icecandidate candidate =>
      cases candidate with
      | none =>
        rw [List.filter_cons_of_neg (by simp [SessionEvent.has_candidate])]
        simp [session_run, signal_step, pc_onicecandidate, ih _ hrest]
      | some c =>
        obtain ⟨component, hc⟩ := hcomponent c (List.mem_cons_self _ _)
        rw [List.filter_cons_of_pos (by rfl)]
        simp only [session_run, signal_step,
          pc_onicecandidate_of_string_component c component hc, List.singleton_append]
        rw [List.filter_cons_of_pos (by rfl), List.length_cons, List.length_cons, ih _ hrest]
    | ws_message data =>
      rw [List.filter_cons_of_neg (by simp [SessionEvent.has_candidate])]
      simp [session_run, signal_step, ws_onmessage_effects_ice_sends, ih _ hrest]
    | ws_open createOffer setLocalDescription still_open =>
      rw [List.filter_cons_of_neg (by simp [SessionEvent.has_candidate])]
      simp [session_run, signal_step, ws_onopen_effects_ice_sends, ih _ hrest]

/-! ## The claims -/

/-- C1, where the code departs from it. At page load `constructor` has no entry in
`downloaded_videos`, yet `play_video("constructor", "player1")` finds the name with `in`,
takes the branch of a downloaded video, sets the title and throws in
`URL.createObjectURL(undefined)`: no `request_download` is sent, no record is created and no
transfer is marked active. -/
theorem play_video_constructor_raises :
    State.initial.downloaded_videos.get "constructor" = none ∧
    play_video "constructor" (.str "player1") State.initial =
      { state := State.initial
        effects := [.title "player1" "constructor"]
        raised := some .TypeError } := by
  decide

/-- What C1 describes, for a filename that has no entry and is not an inherited name:
`play_video` sends exactly one `request_download` carrying the filename and the player id
and marks the transfer active (whatever the state was before); the chunks fed afterwards as
binary frames, followed by the matching `download_complete`, leave the entry with the blob
made of the chunks in arrival order and both flags false, render that blob on the player,
raise nothing and end with `isDownloading = false`. -/
theorem play_then_chunks_then_complete (JSON_parse : String → Option Json) (st : State)
    (f p : String) (chunks : List Bytes) (raw : String) (data : List (String × JsVal))
    (hnew : st.downloaded_videos.get f = none)
    (hown : f ∉ Object_prototype_names)
    (hparse : JSON_parse raw = some (.value data))
    (haction : readProp data "action" = .str "download_complete")
    (hfile : readProp data "filename" = .str f)
    (hplayer : readProp data "video_player_id" = .str p) :
    play_video f (.str p) st =
      { state :=
          { downloaded_videos := st.downloaded_videos.set f
              { blob := none, play_requested := true, save_requested := false }
            fileChunks := []
            isDownloading := true }
        effects := [.send (.request_download (.str p) f)]
        raised := none } ∧
    run JSON_parse (play_video f (.str p) st).state
        (chunk_events chunks ++ [.dc_message (.text raw)]) =
      { state :=
          { downloaded_videos := st.downloaded_videos.set f
              { blob := some { bytes := chunks.flatten, type := "video/mp4" }
                play_requested := false, save_requested := false }
            fileChunks := []
            isDownloading := false }
        effects := [.render p f { bytes := chunks.flatten, type := "video/mp4" }]
        errors := [] } := by
  have hblob : st.blob f = none := by simp [State.blob, hnew]
  have hsave : st.save_requested f = false := by simp [State.save_requested, hnew]
  have hplay := play_video_of_no_blob st f (.str p) hblob
    (State.inherits_of_not_mem st f hown)
  rw [hsave] at hplay
  simp only [JsVal.orNull] at hplay
  refine ⟨hplay, ?_⟩
  rw [hplay, run_append, run_chunk_events _ _ _ rfl, run_single]
  simp only [step]
  rw [dc_onmessage_download_complete _ _ _ _ hparse haction, hfile, hplayer]
  simp only [JsVal.toStr]
  rw [handle_download_completed_eq _ _ _ (State.inherits_mk_set _ _ _ _ _)]
  simp [State.play_requested, State.save_requested,
    Videos.get_set_self, Videos.set_set, State.assembled, JsVal.orNull, JsVal.toStr,
    JsVal.beq_null_eq]

/-- The scenario of C1 as the spec tells it: `clip1.mp4`, `player1`, three chunks. -/
theorem play_then_chunks_then_complete_witness :
    State.initial.downloaded_videos.get "clip1.mp4" = none ∧
    run sample_JSON_parse (play_video "clip1.mp4" (.str "player1") State.initial).state
        (chunk_events [[1], [2, 3], [4]] ++ [.dc_message (.text raw_complete_clip1)]) =
      { state :=
          { downloaded_videos :=
              [("clip1.mp4", { blob := some { bytes := [1, 2, 3, 4], type := "video/mp4" }
                               play_requested := false, save_requested := false })]
            fileChunks := []
            isDownloading := false }
        effects := [.render "player1" "clip1.mp4" { bytes := [1, 2, 3, 4], type := "video/mp4" }]
        errors := [] } :=
  ⟨by decide,
   (play_then_chunks_then_complete sample_JSON_parse State.initial "clip1.mp4" "player1"
      [[1], [2, 3], [4]] raw_complete_clip1
      [("action", .str "download_complete"), ("filename", .str "clip1.mp4"),
        ("video_player_id", .str "player1")]
      (by decide) (by decide) (by decide) (by decide) (by decide) (by decide)).2⟩

/-- C2, as stated, fails: with the transfer of `clip1.mp4` active, `play_video` for another
filename sends a second `request_download`, and so does `save_video` for the same filename. -/
theorem second_request_while_active :
    clip1_requested.isDownloading = true ∧
    (play_video "clip2.mp4" (.str "player1") clip1_requested).effects =
      [.send (.request_download (.str "player1") "clip2.mp4")] ∧
    (save_video "clip1.mp4" clip1_requested).effects =
      [.send (.request_download .null "clip1.mp4")] := by
  decide

/-- C2, amended: the functions have no guard on an active transfer. In every state, so also
while `isDownloading` is true, `play_video` and `save_video` for a filename whose blob is
absent and which is not a name inherited from `Object.prototype` send one
`request_download` for it, empty `fileChunks` and leave `isDownloading` true; the intent is
merged into the record of the filename: its flag is set, the blob and the other flag are
kept, and no other record is written. -/
theorem request_without_blob_always_sends (st : State) (f p : String)
    (hblob : st.blob f = none) (hown : f ∉ Object_prototype_names) :
    play_video f (.str p) st =
      { state :=
          { downloaded_videos := st.downloaded_videos.set f
              { blob := none, play_requested := true, save_requested := st.save_requested f }
            fileChunks := []
            isDownloading := true }
        effects := [.send (.request_download (.str p) f)]
        raised := none } ∧
    save_video f st =
      { state :=
          { downloaded_videos := st.downloaded_videos.set f
              { blob := none, play_requested := st.play_requested f, save_requested := true }
            fileChunks := []
            isDownloading := true }
        effects := [.send (.request_download .null f)]
        raised := none } := by
  have hplay := play_video_of_no_blob st f (.str p) hblob
    (State.inherits_of_not_mem st f hown)
  simp only [JsVal.orNull] at hplay
  exact ⟨hplay, save_video_of_no_blob st f hblob (State.inherits_of_not_mem st f hown)⟩

/-- The amended C2 on an active transfer: `save_video` for the file being played. -/
theorem request_without_blob_always_sends_witness :
    clip1_requested.blob "clip1.mp4" = none ∧ "clip1.mp4" ∉ Object_prototype_names ∧
    save_video "clip1.mp4" clip1_requested =
      { state :=
          { downloaded_videos :=
              [("clip1.mp4", { blob := none, play_requested := true, save_requested := true })]
            fileChunks := []
            isDownloading := true }
        effects := [.send (.request_download .null "clip1.mp4")]
        raised := none } :=
  ⟨by decide, by decide,
   (request_without_blob_always_sends clip1_requested "clip1.mp4" "player1"
    (by decide) (by decide)).2⟩

/-- C3: when the record of a filename has both flags set and a player id comes with the
completion, `handle_download_completed` stores the blob assembled from the chunk buffer,
renders it once on that player, then persists it once, clears both flags and raises
nothing. -/
theorem completion_renders_then_persists (st : State) (f p : String) (entry : VideoEntry)
    (hget : st.downloaded_videos.get f = some entry)
    (hplay : entry.play_requested = true) (hsave : entry.save_requested = true) :
    handle_download_completed f (.str p) st =
      { state :=
          { downloaded_videos := st.downloaded_videos.set f
              { blob := some st.assembled, play_requested := false, save_requested := false }
            fileChunks := []
            isDownloading := false }
        effects := [.render p f st.assembled, .persist f st.assembled]
        raised := none } := by
  rw [handle_download_completed_eq _ _ _ (State.inherits_of_get st f entry hget)]
  simp [State.play_requested, State.save_requested, hget, hplay, hsave, JsVal.orNull,
    JsVal.toStr, JsVal.beq_null_eq]

/-- C3 on a record with both flags set and two buffered chunks. -/
theorem completion_renders_then_persists_witness :
    handle_download_completed "clip1.mp4" (.str "player1")
        { downloaded_videos :=
            [("clip1.mp4", { blob := none, play_requested := true, save_requested := true })]
          fileChunks := [[1, 2], [3]]
          isDownloading := true } =
      { state :=
          { downloaded_videos :=
              [("clip1.mp4", { blob := some { bytes := [1, 2, 3], type := "video/mp4" }
                               play_requested := false, save_requested := false })]
            fileChunks := []
            isDownloading := false }
        effects := [.render "player1" "clip1.mp4" { bytes := [1, 2, 3], type := "video/mp4" },
                    .persist "clip1.mp4" { bytes := [1, 2, 3], type := "video/mp4" }]
        raised := none } :=
  completion_renders_then_persists
    { downloaded_videos :=
        [("clip1.mp4", { blob := none, play_requested := true, save_requested := true })]
      fileChunks := [[1, 2], [3]]
      isDownloading := true }
    "clip1.mp4" "player1" { blob := none, play_requested := true, save_requested := true }
    (by decide) rfl rfl

/-- C4: a `download_error` frame with message `m` (in any state, so also with a transfer
active) shows the alert `File transfer error: m`, empties `fileChunks`, sets `isDownloading`
to false, renders and persists nothing, raises nothing and leaves `downloaded_videos` as it
was, so every blob and every flag keeps its value. -/
theorem download_error_discards_buffer (JSON_parse : String → Option Json) (st : State)
    (raw m : String) (data : List (String × JsVal))
    (hparse : JSON_parse raw = some (.value data))
    (haction : readProp data "action" = .str "download_error")
    (hmessage : readProp data "message" = .str m) :
    dc_onmessage JSON_parse st (.text raw) =
      { state :=
          { downloaded_videos := st.downloaded_videos, fileChunks := [], isDownloading := false }
        effects := [.alert ("File transfer error: " ++ m)]
        raised := none } := by
  rw [dc_onmessage_download_error _ _ _ _ hparse haction, hmessage]
  rfl

/-- The scenario of C4: `save_video` of `clip2.mp4`, one chunk, then `network reset`. -/
theorem download_error_discards_buffer_witness :
    dc_onmessage sample_JSON_parse
        (run sample_JSON_parse State.initial
          [.save_video "clip2.mp4", .dc_message (.binary [7])]).state
        (.text raw_error_reset) =
      { state :=
          { downloaded_videos :=
              [("clip2.mp4", { blob := none, play_requested := false, save_requested := true })]
            fileChunks := []
            isDownloading := false }
        effects := [.alert "File transfer error: network reset"]
        raised := none } :=
  download_error_discards_buffer sample_JSON_parse
    (run sample_JSON_parse State.initial
      [.save_video "clip2.mp4", .dc_message (.binary [7])]).state
    raw_error_reset "network reset"
    [("action", .str "download_error"), ("message", .str "network reset")]
    (by decide) (by decide) (by decide)

/-- C5: let `play_video(f, p)` start a transfer of `f`, that is, send a `request_download`
for it. After some chunks and a `download_error`, a second `play_video(f, p)` sends a fresh
`request_download` for `f`; the chunks that arrive after it, followed by the matching
`download_complete`, are rendered on `p` as one blob that holds exactly these later chunks,
`play_requested` ends false and nothing is raised. (A save requested earlier for `f` is
served by the same completion.) -/
theorem play_again_after_error (JSON_parse : String → Option Json) (st : State)
    (f p : String) (before later : List Bytes) (raw_error raw_done : String)
    (data_error data_done : List (String × JsVal))
    (hstart : (play_video f (.str p) st).effects = [.send (.request_download (.str p) f)])
    (hparse_error : JSON_parse raw_error = some (.value data_error))
    (haction_error : readProp data_error "action" = .str "download_error")
    (hparse_done : JSON_parse raw_done = some (.value data_done))
    (haction_done : readProp data_done "action" = .str "download_complete")
    (hfile : readProp data_done "filename" = .str f)
    (hplayer : readProp data_done "video_player_id" = .str p) :
    run JSON_parse st
        (Event.play_video f p :: (chunk_events before ++
          (Event.dc_message (.text raw_error) :: Event.play_video f p ::
            (chunk_events later ++ [Event.dc_message (.text raw_done)])))) =
      { state :=
          { downloaded_videos := st.downloaded_videos.set f
              { blob := some { bytes := later.flatten, type := "video/mp4" }
                play_requested := false, save_requested := false }
            fileChunks := []
            isDownloading := false }
        effects :=
          [.send (.request_download (.str p) f),
           .alert ("File transfer error: " ++ (readProp data_error "message").toStr),
           .send (.request_download (.str p) f),
           .render p f { bytes := later.flatten, type := "video/mp4" }] ++
          (if st.save_requested f then
            [.persist f { bytes := later.flatten, type := "video/mp4" }] else [])
        errors := [] } := by
  have hin : st.inherits f = false := by
    cases h : st.inherits f with
    | false => rfl
    | true => simp [play_video_effects, h] at hstart
  have hblob : st.blob f = none := by
    cases h : st.blob f with
    | none => rfl
    | some blob => simp [play_video_effects, hin, h] at hstart
  have hplay := play_video_of_no_blob st f (.str p) hblob hin
  simp only [JsVal.orNull] at hplay
  generalize st.save_requested f = saved at hplay ⊢
  rw [run_cons, run_append]
  simp only [step]
  rw [hplay, run_chunk_events _ _ _ rfl, run_cons, run_cons, run_append]
  simp only [step]
  rw [dc_onmessage_download_error _ _ _ _ hparse_error haction_error]
  have hplay2 := play_video_of_no_blob
    { downloaded_videos := st.downloaded_videos.set f
        { blob := none, play_requested := true, save_requested := saved }
      fileChunks := []
      isDownloading := false } f (.str p) (State.blob_mk_set _ _ _ _ _)
    (State.inherits_mk_set _ _ _ _ _)
  simp only [JsVal.orNull, State.save_requested_mk_set, Videos.set_set] at hplay2
  simp only [hplay2]
  rw [run_chunk_events _ _ _ rfl, run_single]
  simp only [step]
  rw [dc_onmessage_download_complete _ _ _ _ hparse_done haction_done, hfile, hplayer]
  simp only [JsVal.toStr]
  rw [handle_download_completed_eq _ _ _ (State.inherits_mk_set _ _ _ _ _)]
  cases saved <;>
  simp [State.play_requested_mk_set, State.save_requested_mk_set,
    Videos.set_set, State.assembled, JsVal.orNull, JsVal.toStr, JsVal.beq_null_eq]

/-- C5 from page load: one chunk before the error, two chunks after the second request. -/
theorem play_again_after_error_witness :
    (play_video "clip1.mp4" (.str "player1") State.initial).effects =
      [.send (.request_download (.str "player1") "clip1.mp4")] ∧
    run sample_JSON_parse State.initial
        (Event.play_video "clip1.mp4" "player1" :: (chunk_events [[9]] ++
          (Event.dc_message (.text raw_error_reset) :: Event.play_video "clip1.mp4" "player1" ::
            (chunk_events [[1], [2]] ++ [Event.dc_message (.text raw_complete_clip1)])))) =
      { state :=
          { downloaded_videos :=
              [("clip1.mp4", { blob := some { bytes := [1, 2], type := "video/mp4" }
                               play_requested := false, save_requested := false })]
            fileChunks := []
            isDownloading := false }
        effects :=
          [.send (.request_download (.str "player1") "clip1.mp4"),
           .alert "File transfer error: network reset",
           .send (.request_download (.str "player1") "clip1.mp4"),
           .render "player1" "clip1.mp4" { bytes := [1, 2], type := "video/mp4" }]
        errors := [] } :=
  ⟨by decide,
   play_again_after_error sample_JSON_parse State.initial "clip1.mp4" "player1" [[9]]
    [[1], [2]] raw_error_reset raw_complete_clip1
    [("action", .str "download_error"), ("message", .str "network reset")]
    [("action", .str "download_complete"), ("filename", .str "clip1.mp4"),
      ("video_player_id", .str "player1")]
    (by decide) (by decide) (by decide) (by decide) (by decide) (by decide) (by decide)⟩

/-- C6: a text frame that parses to a value whose `action` can be read and is none of the
six values the router knows is ignored: the handler raises nothing, has no effect (nothing
sent, rendered, persisted or shown) and leaves the whole state as it was. -/
theorem unknown_action_is_ignored (JSON_parse : String → Option Json) (st : State)
    (raw : String) (data : List (String × JsVal))
    (hparse : JSON_parse raw = some (.value data))
    (hunknown : readProp data "action" ∉ known_actions) :
    dc_onmessage JSON_parse st (.text raw) = { state := st, effects := [], raised := none } := by
  simp only [known_actions, List.mem_cons, List.mem_singleton, not_or, List.not_mem_nil,
    not_false_eq_true, and_true] at hunknown
  obtain ⟨h1, h2, h3, h4, h5, h6⟩ := hunknown
  simp [dc_onmessage, hparse, h1, h2, h3, h4, h5, h6, Outcome.skip]

/-- C6 on the frame of the spec, in a state with an active transfer and a buffered chunk. -/
theorem unknown_action_is_ignored_witness :
    dc_onmessage sample_JSON_parse
        { downloaded_videos :=
            [("clip1.mp4", { blob := none, play_requested := true, save_requested := false })]
          fileChunks := [[1, 2]]
          isDownloading := true }
        (.text raw_unknown_action) =
      { state :=
          { downloaded_videos :=
              [("clip1.mp4", { blob := none, play_requested := true, save_requested := false })]
            fileChunks := [[1, 2]]
            isDownloading := true }
        effects := []
        raised := none } :=
  unknown_action_is_ignored sample_JSON_parse _ raw_unknown_action
    [("action", .str "unknown_action")] (by decide) (by decide)

/-- C7, what the code does: when `JSON.parse` throws on a text frame, `dc.onmessage` has no
handler for it and the `SyntaxError` escapes; the state is as it was and nothing else
happens. -/
theorem malformed_text_frame_raises (JSON_parse : String → Option Json) (st : State)
    (raw : String) (hparse : JSON_parse raw = none) :
    dc_onmessage JSON_parse st (.text raw) =
      { state := st, effects := [], raised := some .SyntaxError } := by
  simp [dc_onmessage, hparse]

/-- C7 on the text `not json`, while the transfer of `clip1.mp4` is active. -/
theorem malformed_text_frame_raises_witness :
    sample_JSON_parse "not json" = none ∧
    dc_onmessage sample_JSON_parse clip1_requested (.text "not json") =
      { state := clip1_requested, effects := [], raised := some .SyntaxError } :=
  ⟨by decide,
   malformed_text_frame_raises sample_JSON_parse clip1_requested "not json" (by decide)⟩

/-- C8: a binary frame is appended at the end of `fileChunks` while `isDownloading` is true
and nothing else changes; otherwise it is dropped and the state is as it was. Neither case
raises or has an effect. -/
theorem binary_frame_appended_or_dropped (JSON_parse : String → Option Json) (st : State)
    (b : Bytes) :
    dc_onmessage JSON_parse st (.binary b) =
      { state :=
          { downloaded_videos := st.downloaded_videos
            fileChunks := if st.isDownloading then st.fileChunks ++ [b] else st.fileChunks
            isDownloading := st.isDownloading }
        effects := []
        raised := none } := by
  obtain ⟨videos, buffer, downloading⟩ := st
  cases downloading <;> simp [dc_onmessage, Outcome.skip]

/-- C9: when the blob of the filename is present, `play_video` renders it on the player,
sends nothing, raises nothing, leaves `isDownloading` and `fileChunks` as they were, keeps
the blob and `save_requested` of the record and sets its `play_requested` to false. -/
theorem play_video_renders_stored_blob (st : State) (f p : String) (entry : VideoEntry)
    (blob : Blob) (hget : st.downloaded_videos.get f = some entry)
    (hblob : entry.blob = some blob) :
    play_video f (.str p) st =
      { state :=
          { downloaded_videos := st.downloaded_videos.set f
              { blob := some blob, play_requested := false
                save_requested := entry.save_requested }
            fileChunks := st.fileChunks
            isDownloading := st.isDownloading }
        effects := [.render p f blob]
        raised := none } := by
  rw [play_video_of_blob st f (.str p) entry blob hget hblob, hblob]
  rfl

/-- C9 on a completed file, with another transfer active. -/
theorem play_video_renders_stored_blob_witness :
    play_video "clip1.mp4" (.str "player1")
        { downloaded_videos :=
            [("clip1.mp4", { blob := some { bytes := [1, 2], type := "video/mp4" }
                             play_requested := false, save_requested := true })]
          fileChunks := [[5]]
          isDownloading := true } =
      { state :=
          { downloaded_videos :=
              [("clip1.mp4", { blob := some { bytes := [1, 2], type := "video/mp4" }
                               play_requested := false, save_requested := true })]
            fileChunks := [[5]]
            isDownloading := true }
        effects := [.render "player1" "clip1.mp4" { bytes := [1, 2], type := "video/mp4" }]
        raised := none } :=
  play_video_renders_stored_blob _ "clip1.mp4" "player1"
    { blob := some { bytes := [1, 2], type := "video/mp4" }
      play_requested := false, save_requested := true }
    { bytes := [1, 2], type := "video/mp4" } (by decide) rfl

/-- C10, as stated, fails: `clip1.mp4` is complete with a blob holding one chunk, a second
`download_complete` for `clip1.mp4` arrives, and the blob is replaced by an empty one. -/
theorem second_completion_replaces_blob :
    clip1_completed.blob "clip1.mp4" = some { bytes := [2], type := "video/mp4" } ∧
    (step sample_JSON_parse clip1_completed
        (.dc_message (.text raw_complete_clip1))).state.blob "clip1.mp4" =
      some { bytes := [], type := "video/mp4" } := by
  decide

/-- C10, amended: once the blob of `f` is present, it is the same after every event that is
not a `download_complete` naming `f`: `play_video`, `save_video`, a binary frame, a
`download_complete` for another filename, a `download_error`, an unknown or malformed
message. A `download_complete` naming `f` replaces it by the blob assembled from the chunk
buffer of that moment. -/
theorem blob_kept_unless_completed_again (JSON_parse : String → Option Json) (st : State)
    (ev : Event) (f : String) (b : Blob) (hblob : st.blob f = some b) :
    (step JSON_parse st ev).state.blob f =
      if completes JSON_parse ev f then some st.assembled else some b := by
  cases ev with
  | play_video g p => simp [step, completes, play_video_blob, hblob]
  | save_video g => simp [step, completes, save_video_blob, hblob]
  | dc_message frame =>
    cases frame with
    | binary chunk =>
      cases h : st.isDownloading <;>
        simpa [step, completes, dc_onmessage, h, Outcome.skip, State.blob] using hblob
    | text raw =>
      cases hparse : JSON_parse raw with
      | none => simp [step, completes, dc_onmessage, hparse, hblob]
      | some parsed =>
        cases parsed with
        | null => simp [step, completes, dc_onmessage, hparse, hblob]
        | value data =>
          by_cases h3 : readProp data "action" = .str "download_complete"
          · simp only [step, completes, hparse,
              dc_onmessage_download_complete _ _ _ _ hparse h3,
              handle_download_completed_blob, h3, decide_True, Bool.true_and, hblob,
              decide_eq_true_eq]
            by_cases hf : (readProp data "filename").toStr = f
            · have hin := State.inherits_of_blob st f b hblob
              simp [hf, hin]
            · simp [hf]
          · by_cases h1 : readProp data "action" = .str "send_latest_intrusion_videos"
            · simp [step, completes, dc_onmessage, hparse, h1, hblob,
                handle_intrusion_videos_response]
            · by_cases h2 : readProp data "action" = .str "send_searched_intrusion_videos"
              · simp [step, completes, dc_onmessage, hparse, h2, hblob,
                  handle_intrusion_videos_response]
              · by_cases h4 : readProp data "action" = .str "download_error"
                · simpa [step, completes, dc_onmessage, hparse, h4, State.blob] using hblob
                · by_cases h5 : readProp data "action" = .str "send_yolox_objects"
                  · simp [step, completes, dc_onmessage, hparse, h5, hblob,
                      handle_yolox_objects_response]
                  · by_cases h6 : readProp data "action" = .str "error"
                    · simp [step, completes, dc_onmessage, hparse, h6, hblob]
                    · simp [step, completes, dc_onmessage, hparse, h1, h2, h3, h4, h5, h6,
                        Outcome.skip, hblob]

/-- The amended C10 on the completed `clip1.mp4`: a `save_video` of it keeps the blob. -/
theorem blob_kept_unless_completed_again_witness :
    clip1_completed.blob "clip1.mp4" = some { bytes := [2], type := "video/mp4" } ∧
    (step sample_JSON_parse clip1_completed (.save_video "clip1.mp4")).state.blob "clip1.mp4" =
      some { bytes := [2], type := "video/mp4" } :=
  ⟨by decide,
   blob_kept_unless_completed_again sample_JSON_parse clip1_completed
    (.save_video "clip1.mp4") "clip1.mp4" { bytes := [2], type := "video/mp4" } (by decide)⟩

/-- C11: for every payload string the signaling `onmessage` handler lets nothing escape. When
`JSON.parse` throws, the body raises a `SyntaxError`, the handler catches it and makes no
call; an envelope with step `1_connect`, `2_send_offer` or `3_send_offer_ice` causes no
call at all; `setRemoteDescription` is called with a value exactly when the payload parses
to an envelope whose step is `4_send_answer` and the value is its `answer`; and the handler
makes no other call: nothing is sent, at most that one call is made. -/
theorem ws_onmessage_never_raises (JSON_parse : String → Option Json) (raw : String) :
    (ws_onmessage JSON_parse raw).raised = none ∧
    (JSON_parse raw = none →
      (ws_onmessage_body JSON_parse raw).raised = some (.thrown .SyntaxError) ∧
      (ws_onmessage JSON_parse raw).effects = []) ∧
    (∀ data, JSON_parse raw = some (.value data) →
      (readProp data "step" = .str "1_connect" ∨ readProp data "step" = .str "2_send_offer" ∨
        readProp data "step" = .str "3_send_offer_ice") →
      (ws_onmessage JSON_parse raw).effects = []) ∧
    (∀ answer, SignalEffect.setRemoteDescription answer ∈ (ws_onmessage JSON_parse raw).effects ↔
      ∃ data, JSON_parse raw = some (.value data) ∧
        readProp data "step" = .str "4_send_answer" ∧ readProp data "answer" = answer) ∧
    (∀ effect ∈ (ws_onmessage JSON_parse raw).effects,
      ∃ answer, effect = SignalEffect.setRemoteDescription answer) ∧
    (ws_onmessage JSON_parse raw).effects.length ≤ 1 := by
  refine ⟨rfl, ?_, ?_, ?_, ?_, ?_⟩
  · intro hparse
    simp [ws_onmessage, ws_onmessage_body, SignalOutcome.caught, hparse]
  · intro data hparse hstep
    rcases hstep with h | h | h <;>
      simp [ws_onmessage, ws_onmessage_body, SignalOutcome.caught, hparse, h]
  · intro answer
    cases hparse : JSON_parse raw with
    | none => simp [ws_onmessage, ws_onmessage_body, SignalOutcome.caught, hparse]
    | some parsed =>
      cases parsed with
      | null => simp [ws_onmessage, ws_onmessage_body, SignalOutcome.caught, hparse]
      | value data =>
        simp only [ws_onmessage, ws_onmessage_body, SignalOutcome.caught, hparse]
        split_ifs with h1 h2 h3 h4
        · simp [h1]
        · simp [h2]
        · simp [h3]
        · simp [h4, eq_comm]
        · simp [h4]
  · intro effect
    cases hparse : JSON_parse raw with
    | none => simp [ws_onmessage, ws_onmessage_body, SignalOutcome.caught, hparse]
    | some parsed =>
      cases parsed with
      | null => simp [ws_onmessage, ws_onmessage_body, SignalOutcome.caught, hparse]
      | value data =>
        simp only [ws_onmessage, ws_onmessage_body, SignalOutcome.caught, hparse]
        split_ifs
        · simp
        · simp
        · simp
        · intro hmem
          exact ⟨readProp data "answer", by simpa using hmem⟩
        · simp
  · cases hparse : JSON_parse raw with
    | none => simp [ws_onmessage, ws_onmessage_body, SignalOutcome.caught, hparse]
    | some parsed =>
      cases parsed with
      | null => simp [ws_onmessage, ws_onmessage_body, SignalOutcome.caught, hparse]
      | value data =>
        simp only [ws_onmessage, ws_onmessage_body, SignalOutcome.caught, hparse]
        split_ifs <;> simp

/-- C11 on three payloads: text that is not JSON, the acknowledgement of the offer, and the
answer envelope. -/
theorem ws_onmessage_never_raises_witness :
    ((ws_onmessage_body sample_signal_parse "not json").raised = some (.thrown .SyntaxError) ∧
      (ws_onmessage sample_signal_parse "not json").effects = []) ∧
    (ws_onmessage sample_signal_parse raw_offer_ack).effects = [] ∧
    SignalEffect.setRemoteDescription (.other "[object Object]") ∈
      (ws_onmessage sample_signal_parse raw_answer).effects :=
  ⟨(ws_onmessage_never_raises sample_signal_parse "not json").2.1 (by decide),
   (ws_onmessage_never_raises sample_signal_parse raw_offer_ack).2.2.1
     [("step", .str "2_send_offer")] (by decide) (Or.inr (Or.inl (by decide))),
   ((ws_onmessage_never_raises sample_signal_parse raw_answer).2.2.2.1
     (.other "[object Object]")).mpr
     ⟨[("step", .str "4_send_answer"), ("answer", .other "[object Object]")],
      by decide, by decide, by decide⟩⟩

/-- C12: `send_offer` lets nothing escape, whatever `createOffer` and `setLocalDescription`
do. If it sends an envelope, then `createOffer` resolved to an offer, `setLocalDescription`
of that offer resolved, the envelope is the `2_send_offer` envelope of that offer, and the
calls were `createOffer`, `setLocalDescription`, send, in this order. If either promise is
rejected nothing is sent. When both resolve and the socket is open the offer is sent. -/
theorem send_offer_sends_only_after_both_succeed (createOffer : Option SessionDescription)
    (setLocalDescription : SessionDescription → Bool) (ws_open : Bool) :
    (send_offer createOffer setLocalDescription ws_open).raised = none ∧
    (∀ envelope,
      SignalEffect.ws_send envelope ∈
        (send_offer createOffer setLocalDescription ws_open).effects →
      ∃ offer, createOffer = some offer ∧ setLocalDescription offer = true ∧
        envelope = .step2_send_offer offer ∧
        (send_offer createOffer setLocalDescription ws_open).effects =
          [.createOffer, .setLocalDescription offer, .ws_send (.step2_send_offer offer)]) ∧
    ((createOffer = none ∨ ∃ offer, createOffer = some offer ∧ setLocalDescription offer = false) →
      (send_offer_body createOffer setLocalDescription ws_open).raised = some .rejected ∧
      ∀ envelope, SignalEffect.ws_send envelope ∉
        (send_offer createOffer setLocalDescription ws_open).effects) ∧
    (∀ offer, createOffer = some offer → setLocalDescription offer = true → ws_open = true →
      (send_offer createOffer setLocalDescription ws_open).effects =
        [.createOffer, .setLocalDescription offer, .ws_send (.step2_send_offer offer)]) := by
  refine ⟨rfl, ?_, ?_, ?_⟩
  · intro envelope hmem
    cases createOffer with
    | none => simp [send_offer, send_offer_body, SignalOutcome.caught] at hmem
    | some offer =>
      cases hset : setLocalDescription offer <;> cases ws_open <;>
        simp [send_offer, send_offer_body, SignalOutcome.caught, hset] at hmem ⊢
      exact hmem
  · intro hfail
    rcases hfail with hnone | ⟨offer, hsome, hset⟩
    · subst hnone
      simp [send_offer, send_offer_body, SignalOutcome.caught]
    · subst hsome
      simp [send_offer, send_offer_body, SignalOutcome.caught, hset]
  · intro offer hsome hset hopen
    subst hsome hopen
    simp [send_offer, send_offer_body, SignalOutcome.caught, hset]

/-- C12 on three runs: `setLocalDescription` rejected, `createOffer` rejected, both resolved
with the socket open. -/
theorem send_offer_sends_only_after_both_succeed_witness :
    (∀ envelope, SignalEffect.ws_send envelope ∉
      (send_offer (some sample_offer) (fun _ => false) true).effects) ∧
    (∀ envelope, SignalEffect.ws_send envelope ∉
      (send_offer none (fun _ => true) true).effects) ∧
    (send_offer (some sample_offer) (fun _ => true) true).effects =
      [.createOffer, .setLocalDescription sample_offer,
       .ws_send (.step2_send_offer sample_offer)] :=
  ⟨((send_offer_sends_only_after_both_succeed (some sample_offer) (fun _ => false) true).2.2.1
      (Or.inr ⟨sample_offer, rfl, rfl⟩)).2,
   ((send_offer_sends_only_after_both_succeed none (fun _ => true) true).2.2.1
      (Or.inl rfl)).2,
   (send_offer_sends_only_after_both_succeed (some sample_offer) (fun _ => true) true).2.2.2
      sample_offer rfl rfl rfl⟩

/-- C13, where the code departs from it. The candidate that ends a generation is not `null`
but has no component: `candidate_info.component.toLowerCase()` throws on it, the `TypeError`
escapes `pc.onicecandidate`, which has no `try`, and no `3_send_offer_ice` envelope is
sent for this non-null candidate event. -/
theorem icecandidate_without_component_raises :
    pc_onicecandidate (some end_of_generation_candidate) =
      { effects := [], raised := some (.thrown .TypeError) } := by
  decide

/-- What C13 describes, for candidates that have a component. Take any sequence of session
events (socket open with the offer, signaling messages with the answer, transfer events)
with `icecandidate` events interleaved anywhere, every candidate having `rtp` or `rtcp` (a
string) as component. The globals of the transfer manager at the end, the effects of the
transfer manager and the signaling calls other than the `3_send_offer_ice` sends, so all
calls on the peer connection, are those of the sequence without the `icecandidate` events.
The sequence sends exactly as many `3_send_offer_ice` envelopes as it has events with a
non-null candidate. The handler has no phase to look at: on a candidate it makes exactly one
call, the send of the envelope built from it, and on `null` it makes none; neither raises. -/
theorem candidates_sent_in_any_phase (JSON_parse : String → Option Json) (st : State)
    (events : List SessionEvent)
    (hcomponent : ∀ c, SessionEvent.icecandidate (some c) ∈ events →
      ∃ component, c.component = .str component) :
    (session_run JSON_parse st (events.filter fun ev => !ev.is_icecandidate)).state =
      (session_run JSON_parse st events).state ∧
    (session_run JSON_parse st (events.filter fun ev => !ev.is_icecandidate)).effects =
      (session_run JSON_parse st events).effects ∧
    (session_run JSON_parse st (events.filter fun ev => !ev.is_icecandidate)).signaling =
      (session_run JSON_parse st events).signaling.filter (fun e => !e.is_ice_send) ∧
    ((session_run JSON_parse st events).signaling.filter fun e => e.is_ice_send).length =
      (events.filter fun ev => ev.has_candidate).length ∧
    (∀ c, SessionEvent.icecandidate (some c) ∈ events →
      ∃ ice_candidate, pc_onicecandidate (some c) =
        { effects := [.ws_send (.step3_send_offer_ice ice_candidate)], raised := none } ∧
        ice_candidate.foundation = c.foundation ∧ ice_candidate.address = c.address ∧
        ice_candidate.port = c.port ∧ ice_candidate.sdpMid = c.sdpMid) ∧
    pc_onicecandidate none = { effects := [], raised := none } := by
  obtain ⟨h1, h2, h3⟩ := session_run_ignores_candidates JSON_parse st events
  refine ⟨h1, h2, h3, session_run_ice_sends JSON_parse st events hcomponent, ?_, rfl⟩
  intro c hc
  obtain ⟨component, hstr⟩ := hcomponent c hc
  exact ⟨_, pc_onicecandidate_of_string_component c component hstr, rfl, rfl, rfl, rfl⟩

/-- A session in which a candidate arrives before the socket opens, one after the offer is
sent and one after the answer: three envelopes are sent, and the calls on the peer
connection are those of the session without candidates. -/
theorem candidates_sent_in_any_phase_witness :
    (session_run sample_signal_parse State.initial
        [.icecandidate (some sample_candidate), .ws_open (some sample_offer) true true,
         .icecandidate (some sample_candidate), .icecandidate none, .ws_message raw_answer,
         .icecandidate (some sample_candidate)]).signaling.filter (fun e => !e.is_ice_send) =
      [.ws_send (.step1_connect "web_interface"), .createOffer,
       .setLocalDescription sample_offer, .ws_send (.step2_send_offer sample_offer),
       .setRemoteDescription (.other "[object Object]")] ∧
    ((session_run sample_signal_parse State.initial
        [.icecandidate (some sample_candidate), .ws_open (some sample_offer) true true,
         .icecandidate (some sample_candidate), .icecandidate none, .ws_message raw_answer,
         .icecandidate (some sample_candidate)]).signaling.filter
      fun e => e.is_ice_send).length = 3 :=
  ⟨((candidates_sent_in_any_phase sample_signal_parse State.initial
      [.icecandidate (some sample_candidate), .ws_open (some sample_offer) true true,
       .icecandidate (some sample_candidate), .icecandidate none, .ws_message raw_answer,
       .icecandidate (some sample_candidate)]
      (fun c hc => ⟨"rtp", by simp at hc; rw [hc]; rfl⟩)).2.2.1).symm.trans (by decide),
   (candidates_sent_in_any_phase sample_signal_parse State.initial
      [.icecandidate (some sample_candidate), .ws_open (some sample_offer) true true,
       .icecandidate (some sample_candidate), .icecandidate none, .ws_message raw_answer,
       .icecandidate (some sample_candidate)]
      (fun c hc => ⟨"rtp", by simp at hc; rw [hc]; rfl⟩)).2.2.2.1.trans (by decide)⟩

/-- C14: in one step of the transfer manager (`play_video`, `save_video`, or a frame on the
data channel, be it binary, `download_complete`, `download_error` or anything else),
`play_requested` of a record goes from true to false only if the step renders the blob that
the record holds afterwards, and `save_requested` goes from true to false only if the step
persists the blob that the record holds afterwards. -/
theorem flags_cleared_only_with_their_effect (JSON_parse : String → Option Json) (st : State)
    (ev : Event) (f : String) :
    (st.play_requested f = true → (step JSON_parse st ev).state.play_requested f = false →
      ∃ p b, (step JSON_parse st ev).state.blob f = some b ∧
        Effect.render p f b ∈ (step JSON_parse st ev).effects) ∧
    (st.save_requested f = true → (step JSON_parse st ev).state.save_requested f = false →
      ∃ b, (step JSON_parse st ev).state.blob f = some b ∧
        Effect.persist f b ∈ (step JSON_parse st ev).effects) := by
  have hcompleted : ∀ g v,
      (st.play_requested f = true →
        (handle_download_completed g v st).state.play_requested f = false →
        ∃ p b, (handle_download_completed g v st).state.blob f = some b ∧
          Effect.render p f b ∈ (handle_download_completed g v st).effects) ∧
      (st.save_requested f = true →
        (handle_download_completed g v st).state.save_requested f = false →
        ∃ b, (handle_download_completed g v st).state.blob f = some b ∧
          Effect.persist f b ∈ (handle_download_completed g v st).effects) := by
    intro g v
    rw [handle_download_completed_play_requested, handle_download_completed_save_requested,
      handle_download_completed_blob, handle_download_completed_effects]
    by_cases h : g = f
    · subst h
      constructor
      · intro hbefore hafter
        refine ⟨v.orNull.toStr, st.assembled,
          by simp [State.inherits_of_play_requested st g hbefore], ?_⟩
        simp only [if_true, hbefore, Bool.true_and] at hafter
        simp [hbefore, bne, hafter]
      · intro hbefore _
        exact ⟨st.assembled, by simp [State.inherits_of_save_requested st g hbefore],
          by simp [hbefore]⟩
    · constructor
      · intro hbefore hafter
        simp [h, hbefore] at hafter
      · intro hbefore hafter
        simp [h, hbefore] at hafter
  cases ev with
  | play_video g p =>
    simp only [step]
    rw [play_video_play_requested, play_video_save_requested, play_video_blob,
      play_video_effects]
    constructor
    · intro hbefore hafter
      by_cases h : g = f
      · subst h
        have hin := State.inherits_of_play_requested st g hbefore
        cases hb : st.blob g with
        | none => simp [hb, hin] at hafter
        | some b => exact ⟨p, b, rfl, by simp [JsVal.toStr, hin]⟩
      · simp [h, hbefore] at hafter
    · intro hbefore hafter
      simp [hbefore] at hafter
  | save_video g =>
    simp only [step]
    rw [save_video_play_requested, save_video_save_requested, save_video_blob,
      save_video_effects]
    constructor
    · intro hbefore hafter
      simp [hbefore] at hafter
    · intro hbefore hafter
      by_cases h : g = f
      · subst h
        have hin := State.inherits_of_save_requested st g hbefore
        cases hb : st.blob g with
        | none => simp [hb, hin] at hafter
        | some b => exact ⟨b, rfl, by simp [hin]⟩
      · simp [h, hbefore] at hafter
  | dc_message frame =>
    simp only [step]
    rcases dc_onmessage_completes_or_keeps_videos JSON_parse st frame with
      ⟨g, v, hdone⟩ | hkeep
    · rw [hdone]
      exact hcompleted g v
    · constructor
      · intro hbefore hafter
        rw [State.play_requested_congr _ st f hkeep, hbefore] at hafter
        exact absurd hafter (by decide)
      · intro hbefore hafter
        rw [State.save_requested_congr _ st f hkeep, hbefore] at hafter
        exact absurd hafter (by decide)

/-- C14 on the completion of `clip1.mp4` with both flags set: both flags are cleared, by the
render and by the persist of the step. -/
theorem flags_cleared_only_with_their_effect_witness :
    (∃ p b,
      (step sample_JSON_parse
          { downloaded_videos :=
              [("clip1.mp4", { blob := none, play_requested := true, save_requested := true })]
            fileChunks := [[1, 2]]
            isDownloading := true }
          (.dc_message (.text raw_complete_clip1))).state.blob "clip1.mp4" = some b ∧
      Effect.render p "clip1.mp4" b ∈
        (step sample_JSON_parse
          { downloaded_videos :=
              [("clip1.mp4", { blob := none, play_requested := true, save_requested := true })]
            fileChunks := [[1, 2]]
            isDownloading := true }
          (.dc_message (.text raw_complete_clip1))).effects) ∧
    (∃ b,
      (step sample_JSON_parse
          { downloaded_videos :=
              [("clip1.mp4", { blob := none, play_requested := true, save_requested := true })]
            fileChunks := [[1, 2]]
            isDownloading := true }
          (.dc_message (.text raw_complete_clip1))).state.blob "clip1.mp4" = some b ∧
      Effect.persist "clip1.mp4" b ∈
        (step sample_JSON_parse
          { downloaded_videos :=
              [("clip1.mp4", { blob := none, play_requested := true, save_requested := true })]
            fileChunks := [[1, 2]]
            isDownloading := true }
          (.dc_message (.text raw_complete_clip1))).effects) :=
  ⟨(flags_cleared_only_with_their_effect sample_JSON_parse _
      (.dc_message (.text raw_complete_clip1)) "clip1.mp4").1 (by decide) (by decide),
   (flags_cleared_only_with_their_effect sample_JSON_parse _
      (.dc_message (.text raw_complete_clip1)) "clip1.mp4").2 (by decide) (by decide)⟩

/-- C15: when the record of `f` has `play_requested` set and the completion carries no player
id (`null`, or `undefined`, which the default parameter turns into `null`),
`handle_download_completed` stores the assembled blob, renders nothing, leaves
`play_requested` true, and persists exactly when a save was requested. And in every state,
for every filename and player id, `handle_download_completed` sends nothing, raises nothing
and ends with `isDownloading = false` and `fileChunks` empty. -/
theorem completion_without_player_keeps_play_request (st : State) (f : String)
    (video_player_id : JsVal) (entry : VideoEntry)
    (hget : st.downloaded_videos.get f = some entry)
    (hplay : entry.play_requested = true)
    (hnone : video_player_id = .null ∨ video_player_id = .undefined) :
    handle_download_completed f video_player_id st =
      { state :=
          { downloaded_videos := st.downloaded_videos.set f
              { blob := some st.assembled, play_requested := true, save_requested := false }
            fileChunks := []
            isDownloading := false }
        effects := if entry.save_requested then [.persist f st.assembled] else []
        raised := none } ∧
    (∀ p b, Effect.render p f b ∉ (handle_download_completed f video_player_id st).effects) ∧
    ∀ (other : State) (g : String) (v : JsVal),
      (∀ message, Effect.send message ∉ (handle_download_completed g v other).effects) ∧
      (handle_download_completed g v other).raised = none ∧
      (handle_download_completed g v other).state.isDownloading = false ∧
      (handle_download_completed g v other).state.fileChunks = [] := by
  have hnull : video_player_id.orNull = .null := by
    rcases hnone with h | h <;> simp [h, JsVal.orNull]
  have hform : handle_download_completed f video_player_id st =
      { state :=
          { downloaded_videos := st.downloaded_videos.set f
              { blob := some st.assembled, play_requested := true, save_requested := false }
            fileChunks := []
            isDownloading := false }
        effects := if entry.save_requested then [.persist f st.assembled] else []
        raised := none } := by
    rw [handle_download_completed_eq _ _ _ (State.inherits_of_get st f entry hget), hnull]
    simp [State.play_requested, State.save_requested, hget, hplay]
  refine ⟨hform, ?_, ?_⟩
  · intro p b
    rw [hform]
    cases entry.save_requested <;> simp
  · intro other g v
    cases hin : other.inherits g with
    | true =>
      rw [handle_download_completed_of_inherited _ _ _ hin]
      exact ⟨by simp, rfl, rfl, rfl⟩
    | false =>
      rw [handle_download_completed_eq _ _ _ hin]
      refine ⟨?_, rfl, rfl, rfl⟩
      intro message
      cases other.play_requested g && v.orNull != .null <;>
        cases other.save_requested g <;> simp

/-- C15 after `play_video` then `save_video` of `clip1.mp4` and one chunk: a completion with
`null` as player id stores and persists the blob and keeps the play request. -/
theorem completion_without_player_keeps_play_request_witness :
    handle_download_completed "clip1.mp4" .null
        { downloaded_videos :=
            [("clip1.mp4", { blob := none, play_requested := true, save_requested := true })]
          fileChunks := [[1, 2]]
          isDownloading := true } =
      { state :=
          { downloaded_videos :=
              [("clip1.mp4", { blob := some { bytes := [1, 2], type := "video/mp4" }
                               play_requested := true, save_requested := false })]
            fileChunks := []
            isDownloading := false }
        effects := [.persist "clip1.mp4" { bytes := [1, 2], type := "video/mp4" }]
        raised := none } :=
  (completion_without_player_keeps_play_request
    { downloaded_videos :=
        [("clip1.mp4", { blob := none, play_requested := true, save_requested := true })]
      fileChunks := [[1, 2]]
      isDownloading := true }
    "clip1.mp4" .null { blob := none, play_requested := true, save_requested := true }
    (by decide) rfl (Or.inl rfl)).1

end ReliantWatcher
